import Mathlib

/-!
A shallow embedding of `src/datasets/utils/metadata.py` (the dataset
metadata validator) and proofs about it.

Modelling conventions:
* YAML list elements are Python objects embedded as `PyObj`, up to the
  observations the validators make: the string value of a string element,
  the string members of a non-string iterable element (all that the `in`
  membership test can see), and nothing of a non-iterable element.
* The five reference vocabularies are loaded from bundled JSON resources
  that are external data (the JSON files are not part of the analysed
  source), so the embedding is parametric in a `Vocabs` record; likewise
  the `langcodes` BCP-47 recognizer is an external capability embedded as a
  predicate `chk : String → Bool`, and `yaml.safe_load` as a function
  producing a mapping or nothing.
* Python exceptions become `Except` values; code that can raise an
  exception that the source does not catch (indexing an empty list, calling
  a string method on a non-string) returns `Except`.
-/

set_option linter.unusedVariables false

/-- A Python object as it can appear inside a YAML-parsed list, modelled up
to the observations the validators make of it: the string value when it is
a string; when it is a non-string iterable (a YAML list or mapping), the
list of its string members — the only thing `pat in e` can observe, since
`in` on a container is a membership test comparing `pat` with each member
(and a pattern string equals no non-string member); and nothing when it is
a non-iterable (number, boolean, null), on which `in` raises a
`TypeError`. -/
inductive PyObj where
  | str (s : String)
  | iter (mems : List String)
  | other
  deriving DecidableEq, Repr

/-- Python `v in reference_values` where `reference_values` is a list of
strings: `==` between a non-string and a string is `False`, so only string
objects can be members. -/
def PyObj.inStrList : PyObj → List String → Bool
  | .str s, ref => ref.contains s
  | .iter _, _ => false
  | .other, _ => false

/-- Python `repr` of a list element as used by f-string formatting of
`invalid_values` lists.  The repr of a non-string object is abstracted to a
fixed token (no claim depends on it: every message a claim inspects is
produced from string elements). -/
def pyReprElem : PyObj → String
  | .str s => "'" ++ s ++ "'"
  | .iter _ => "<obj>"
  | .other => "<obj>"

/-- Python `repr` of a list, as interpolated by f-strings. -/
def pyReprList (xs : List PyObj) : String :=
  "[" ++ String.intercalate ", " (xs.map pyReprElem) ++ "]"

/-- Does the character list begin with the pattern? (the recursion behind
the embedded Python string tests; written on `List Char` so that it
evaluates by kernel reduction). -/
def charsBeginWith : List Char → List Char → Bool
  | [], _ => true
  | _ :: _, [] => false
  | a :: as, b :: bs => a == b && charsBeginWith as bs

/-- Does the character list contain the pattern as a contiguous
subsequence? -/
def charsContain (pat : List Char) : List Char → Bool
  | [] => pat.isEmpty
  | c :: cs => charsBeginWith pat (c :: cs) || charsContain pat cs

/-- Python `pat in s` for strings: the substring test. -/
def pyStrContains (s pat : String) : Bool :=
  charsContain pat.data s.data

/-- Python `s.startswith(pat)`. -/
def pyStartsWith (s pat : String) : Bool :=
  charsBeginWith pat.data s.data

/-- `BASE_REF_URL` from the source. -/
def BASE_REF_URL : String :=
  "https://github.com/huggingface/datasets/tree/master/src/datasets/utils"

/-- The URL `load_json_resource` pairs with `licenses.json`. -/
def known_licenses_url : String := BASE_REF_URL ++ "/resources/licenses.json"

/-- The URL `load_json_resource` pairs with `tasks.json`. -/
def known_task_ids_url : String := BASE_REF_URL ++ "/resources/tasks.json"

/-- The URL `load_json_resource` pairs with `creators.json`. -/
def known_creators_url : String := BASE_REF_URL ++ "/resources/creators.json"

/-- The URL `load_json_resource` pairs with `size_categories.json`. -/
def known_size_categories_url : String := BASE_REF_URL ++ "/resources/size_categories.json"

/-- The URL `load_json_resource` pairs with `multilingualities.json`. -/
def known_multilingualities_url : String := BASE_REF_URL ++ "/resources/multilingualities.json"

/-- `this_url = f"(BASE_REF_URL)/(file)"`: its exact tail depends on the
runtime value of `__file__`; a fixed stand-in is used, no claim depends on
its exact value. -/
def this_url : String := BASE_REF_URL ++ "/metadata.py"

/-- The five reference vocabularies (`known_licenses`, `known_task_ids`,
`known_creators`, `known_size_categories`, `known_multilingualities`),
reduced to the shapes the validators consume: license keys, the task
taxonomy as an association list category ↦ options, the two creator role
lists, the size-category list and the multilinguality keys.  They are
external data loaded from bundled JSON resources, so the embedding is
parametric in them. -/
structure Vocabs where
  known_licenses : List String
  known_task_ids : List (String × List String)
  creators_annotations : List String
  creators_language : List String
  known_size_categories : List String
  known_multilingualities : List String
  deriving DecidableEq, Repr

/-- The error message `tagset_validator` builds:
`f"(invalid_values) are not registered tags for '(name)', reference at (url)"`. -/
def tagsetErrorMessage (invalid_values : List PyObj) (name url : String) : String :=
  pyReprList invalid_values ++ " are not registered tags for '" ++ name ++
    "', reference at " ++ url

/-- `tagset_validator` (metadata.py lines 51-55). -/
def tagset_validator (values : List PyObj) (reference_values : List String)
    (name : String) (url : String) : List PyObj × Option String :=
  let invalid_values := values.filter (fun v => !v.inStrList reference_values)
  if invalid_values.length > 0 then
    ([], some (tagsetErrorMessage invalid_values name url))
  else
    (values, none)

/-- `escape_validation_for_predicate` (lines 58-69).  The predicate lambdas
used by the callers raise on non-string elements (`in` on a non-iterable,
`.startswith` on a non-string), so predicates return `Except Unit Bool` and
the first raising element aborts the whole call.  The `logger.warning` on
escaped values is a side effect with no bearing on the returned value and is
not modelled. -/
def escape_validation_for_predicate :
    List PyObj → (PyObj → Except Unit Bool) → Except Unit (List PyObj × List PyObj)
  | [], _ => .ok ([], [])
  | v :: vs, p => do
    let b ← p v
    let (trues, falses) ← escape_validation_for_predicate vs p
    if b then .ok (v :: trues, falses) else .ok (trues, v :: falses)

/-- The predicate `lambda e: "-other-" in e`: the substring test on a
string, the MEMBERSHIP test on a non-string iterable (`"-other-" in
["-other-"]` is `True`, no exception), and a `TypeError` on a
non-iterable. -/
def containsOtherEscape : PyObj → Except Unit Bool
  | .str s => .ok (pyStrContains s "-other-")
  | .iter mems => .ok (mems.contains "-other-")
  | .other => .error ()

/-- The predicate `lambda e: e.startswith("other")` (raises an
`AttributeError` on every non-string element, iterable or not). -/
def startsWithOtherEscape : PyObj → Except Unit Bool
  | .str s => .ok (pyStartsWith s "other")
  | .iter _ => .error ()
  | .other => .error ()

/-- The validated record: the nine fields of the `DatasetMetadata`
dataclass, holding the values as assigned by `__post_init__`. -/
structure DatasetMetadata where
  annotations_creators : List PyObj
  language_creators : List PyObj
  languages : List PyObj
  licenses : List PyObj
  multilinguality : List PyObj
  size_categories : List PyObj
  source_datasets : List PyObj
  task_categories : List PyObj
  task_ids : List PyObj
  deriving DecidableEq, Repr

/-- `annotations_creators_must_be_in_known_set` (lines 141-143): note the
name handed to `tagset_validator` is the literal `"annotations"`. -/
def DatasetMetadata.annotations_creators_must_be_in_known_set (V : Vocabs)
    (annotations_creators : List PyObj) : List PyObj × Option String :=
  tagset_validator annotations_creators V.creators_annotations "annotations" known_creators_url

/-- `language_creators_must_be_in_known_set` (lines 145-147): note the name
handed to `tagset_validator` is the literal `"annotations"`, not
`"language_creators"`. -/
def DatasetMetadata.language_creators_must_be_in_known_set (V : Vocabs)
    (language_creators : List PyObj) : List PyObj × Option String :=
  tagset_validator language_creators V.creators_language "annotations" known_creators_url

/-- The loop body of `language_code_must_be_recognized`: collect the
elements that `lc.get` rejects with a `LanguageTagError`.  `lc.get` applied
to a non-string raises an error that the `except` clause does not catch, so
a non-string element aborts the call. -/
def collectInvalidCodes (chk : String → Bool) : List PyObj → Except Unit (List PyObj)
  | [] => .ok []
  | .iter _ :: _ => .error ()
  | .other :: _ => .error ()
  | .str s :: rest => do
    let inv ← collectInvalidCodes chk rest
    .ok (if chk s then inv else .str s :: inv)

/-- `language_code_must_be_recognized` (lines 149-162), parametric in the
BCP-47 recognizer `chk` (the external `langcodes` capability). -/
def DatasetMetadata.language_code_must_be_recognized (chk : String → Bool)
    (languages : List PyObj) : Except Unit (List PyObj × Option String) := do
  let invalid_values ← collectInvalidCodes chk languages
  if invalid_values.length > 0 then
    .ok ([], some (pyReprList invalid_values ++
      " are not recognised as valid language codes (BCP47 norm), you can refer to https://github.com/LuminosoInsight/langcodes"))
  else
    .ok (languages, none)

/-- `licenses_must_be_in_known_set` (lines 164-168). -/
def DatasetMetadata.licenses_must_be_in_known_set (V : Vocabs)
    (licenses : List PyObj) : Except Unit (List PyObj × Option String) := do
  let (others, to_validate) ← escape_validation_for_predicate licenses containsOtherEscape
  let (validated, error) :=
    tagset_validator to_validate V.known_licenses "licenses" known_licenses_url
  .ok (validated ++ others, error)

/-- `task_category_must_be_in_known_set` (lines 170-177): the known set is
the key list of the task taxonomy; note the name handed to
`tagset_validator` is the literal `"tasks_ids"`. -/
def DatasetMetadata.task_category_must_be_in_known_set (V : Vocabs)
    (task_categories : List PyObj) : Except Unit (List PyObj × Option String) := do
  let known_set := V.known_task_ids.map Prod.fst
  let (others, to_validate) ← escape_validation_for_predicate task_categories startsWithOtherEscape
  let (validated, error) := tagset_validator to_validate known_set "tasks_ids" known_task_ids_url
  .ok (validated ++ others, error)

/-- `task_id_must_be_in_known_set` (lines 179-186): the known set is the
concatenation of every category's `"options"` list. -/
def DatasetMetadata.task_id_must_be_in_known_set (V : Vocabs)
    (task_ids : List PyObj) : Except Unit (List PyObj × Option String) := do
  let known_set := (V.known_task_ids.map Prod.snd).flatten
  let (others, to_validate) ← escape_validation_for_predicate task_ids containsOtherEscape
  let (validated, error) := tagset_validator to_validate known_set "tasks_ids" known_task_ids_url
  .ok (validated ++ others, error)

/-- `multilinguality_must_be_in_known_set` (lines 188-194): note the URL
handed to `tagset_validator` is `known_size_categories_url`, not
`known_multilingualities_url`. -/
def DatasetMetadata.multilinguality_must_be_in_known_set (V : Vocabs)
    (multilinguality : List PyObj) : Except Unit (List PyObj × Option String) := do
  let (others, to_validate) ← escape_validation_for_predicate multilinguality startsWithOtherEscape
  let (validated, error) :=
    tagset_validator to_validate V.known_multilingualities "multilinguality" known_size_categories_url
  .ok (validated ++ others, error)

/-- `size_categories_must_be_in_known_set` (lines 196-198). -/
def DatasetMetadata.size_categories_must_be_in_known_set (V : Vocabs)
    (size_cats : List PyObj) : List PyObj × Option String :=
  tagset_validator size_cats V.known_size_categories "size_categories" known_size_categories_url

/-- The loop body of `source_datasets_must_be_in_known_set`: a value is ok
when it equals `"original"` or `"extended"` or starts with `"extended|"`;
`.startswith` on a non-string raises, aborting the call. -/
def collectInvalidSources : List PyObj → Except Unit (List PyObj)
  | [] => .ok []
  | .iter _ :: _ => .error ()
  | .other :: _ => .error ()
  | .str s :: rest => do
    let inv ← collectInvalidSources rest
    .ok (if s == "original" || s == "extended" || pyStartsWith s "extended|" then inv
         else .str s :: inv)

/-- `source_datasets_must_be_in_known_set` (lines 200-213). -/
def DatasetMetadata.source_datasets_must_be_in_known_set
    (sources : List PyObj) : Except Unit (List PyObj × Option String) := do
  let invalid_values ← collectInvalidSources sources
  if invalid_values.length > 0 then
    .ok ([], some ("'source_datasets' has invalid values: " ++ pyReprList invalid_values ++
      ", refer to source code to understand " ++ this_url))
  else
    .ok (sources, none)

/-- The raw value bound to a dataclass field before validation: a Python
list of objects, or any non-list value (string, number, mapping, `None`,
...) collapsed to one constructor since `__post_init__` only asks
`isinstance(value, list)` of it. -/
inductive RawVal where
  | list (xs : List PyObj)
  | nonList
  deriving DecidableEq, Repr

/-- The structural precheck on one field value
(`not isinstance(value, list) or len(value) == 0 or not isinstance(value[0], str)`):
only the FIRST element is tested for being a string. -/
def RawVal.isBasicTypingError : RawVal → Bool
  | .list (.str _ :: _) => false
  | _ => true

/-- The underlying list of a raw value (only consulted after the precheck
has established the value is a list). -/
def RawVal.toList : RawVal → List PyObj
  | .list xs => xs
  | .nonList => []

/-- The nine attribute values as bound by the dataclass `__init__` before
`__post_init__` runs. -/
structure RawFields where
  annotations_creators : RawVal
  language_creators : RawVal
  languages : RawVal
  licenses : RawVal
  multilinguality : RawVal
  size_categories : RawVal
  source_datasets : RawVal
  task_categories : RawVal
  task_ids : RawVal
  deriving DecidableEq, Repr

/-- `vars(self).items()` in field declaration order. -/
def RawFields.entries (r : RawFields) : List (String × RawVal) :=
  [("annotations_creators", r.annotations_creators),
   ("language_creators", r.language_creators),
   ("languages", r.languages),
   ("licenses", r.licenses),
   ("multilinguality", r.multilinguality),
   ("size_categories", r.size_categories),
   ("source_datasets", r.source_datasets),
   ("task_categories", r.task_categories),
   ("task_ids", r.task_ids)]

/-- The ways constructing a `DatasetMetadata` can fail: the missing-argument
`TypeError` Python raises for `cls(**d)` with absent keys, the structural
precheck `TypeError` (carrying the offending field names), the aggregated
validation `TypeError` (carrying field name ↦ error message, in insertion
order), or an exception escaping a validator (an uncaught `TypeError` /
`AttributeError` on a non-string element). -/
inductive ConstructError where
  | missingArguments (names : List String)
  | basicTypingError (names : List String)
  | validationError (report : List (String × String))
  | crash
  deriving DecidableEq, Repr

/-- Re-raise an uncaught exception from a validator as a construction
failure. -/
def liftCrash : Except Unit α → Except ConstructError α
  | .ok a => .ok a
  | .error _ => .error .crash

/-- The structural precheck of `__post_init__` (lines 85-89): the names of
every field whose bound value is not a list, is an empty list, or has a
non-string first element, collected all at once in `vars(self)` order. -/
def basic_typing_errors (r : RawFields) : List String :=
  r.entries.filterMap (fun nv => if nv.snd.isBasicTypingError then some nv.fst else none)

/-- The validation part of `__post_init__` (lines 93-126), run once the
structural precheck has passed.  Faithful details: the nine validators run
in source order, `languages` being validated from the already-validated
`language_creators` (line 99); the aggregated `errors` mapping (lines
107-116) has entries for eight fields only — `languages_errors` is computed
and then never read. -/
def DatasetMetadata.post_validate (V : Vocabs) (chk : String → Bool)
    (r : RawFields) : Except ConstructError DatasetMetadata := do
    let (annotations_creators, annotations_creators_errors) :=
      DatasetMetadata.annotations_creators_must_be_in_known_set V r.annotations_creators.toList
    let (language_creators, language_creators_errors) :=
      DatasetMetadata.language_creators_must_be_in_known_set V r.language_creators.toList
    let (languages, languages_errors) ←
      liftCrash (DatasetMetadata.language_code_must_be_recognized chk language_creators)
    let (licenses, licenses_errors) ←
      liftCrash (DatasetMetadata.licenses_must_be_in_known_set V r.licenses.toList)
    let (multilinguality, multilinguality_errors) ←
      liftCrash (DatasetMetadata.multilinguality_must_be_in_known_set V r.multilinguality.toList)
    let (size_categories, size_categories_errors) :=
      DatasetMetadata.size_categories_must_be_in_known_set V r.size_categories.toList
    let (source_datasets, source_datasets_errors) ←
      liftCrash (DatasetMetadata.source_datasets_must_be_in_known_set r.source_datasets.toList)
    let (task_categories, task_categories_errors) ←
      liftCrash (DatasetMetadata.task_category_must_be_in_known_set V r.task_categories.toList)
    let (task_ids, task_ids_errors) ←
      liftCrash (DatasetMetadata.task_id_must_be_in_known_set V r.task_ids.toList)
    let errors : List (String × Option String) :=
      [("annotations_creators", annotations_creators_errors),
       ("language_creators", language_creators_errors),
       ("licenses", licenses_errors),
       ("multilinguality", multilinguality_errors),
       ("size_categories", size_categories_errors),
       ("source_datasets", source_datasets_errors),
       ("task_categories", task_categories_errors),
       ("task_ids", task_ids_errors)]
    let exception_msg_dict := errors.filterMap (fun fe => fe.snd.map (fun e => (fe.fst, e)))
    if exception_msg_dict.length > 0 then
      .error (.validationError exception_msg_dict)
    else
      .ok ⟨annotations_creators, language_creators, languages, licenses,
        multilinguality, size_categories, source_datasets, task_categories, task_ids⟩

/-- The dataclass construction: `__init__` has bound the nine raw values,
then `__post_init__` (lines 84-126) runs: the structural precheck raises a
`TypeError` naming every offending field, otherwise the nine validators run
and their aggregated errors, if any, raise a `TypeError`. -/
def DatasetMetadata.construct (V : Vocabs) (chk : String → Bool)
    (r : RawFields) : Except ConstructError DatasetMetadata :=
  if (basic_typing_errors r).length > 0 then
    .error (.basicTypingError (basic_typing_errors r))
  else
    DatasetMetadata.post_validate V chk r

/-- A raw mapping as produced by YAML parsing: each of the nine keys may be
present (with any value) or absent.  (Extra keys, which Python's call
machinery would also reject, are outside the model.) -/
structure RawMapping where
  annotations_creators : Option RawVal
  language_creators : Option RawVal
  languages : Option RawVal
  licenses : Option RawVal
  multilinguality : Option RawVal
  size_categories : Option RawVal
  source_datasets : Option RawVal
  task_categories : Option RawVal
  task_ids : Option RawVal
  deriving DecidableEq, Repr

/-- The mapping's entries in the dataclass parameter order. -/
def RawMapping.entries (m : RawMapping) : List (String × Option RawVal) :=
  [("annotations_creators", m.annotations_creators),
   ("language_creators", m.language_creators),
   ("languages", m.languages),
   ("licenses", m.licenses),
   ("multilinguality", m.multilinguality),
   ("size_categories", m.size_categories),
   ("source_datasets", m.source_datasets),
   ("task_categories", m.task_categories),
   ("task_ids", m.task_ids)]

/-- The parameters `cls(**m)` fails to bind: Python raises
`TypeError: __init__() missing n required positional arguments: ...`
naming every absent parameter, before `__post_init__` can run. -/
def missing_arguments (m : RawMapping) : List String :=
  m.entries.filterMap (fun nv => if nv.snd.isNone then some nv.fst else none)

/-- Bind the present values (only used once `missing_arguments` is empty). -/
def RawMapping.toRawFields (m : RawMapping) : RawFields :=
  ⟨m.annotations_creators.getD .nonList,
   m.language_creators.getD .nonList,
   m.languages.getD .nonList,
   m.licenses.getD .nonList,
   m.multilinguality.getD .nonList,
   m.size_categories.getD .nonList,
   m.source_datasets.getD .nonList,
   m.task_categories.getD .nonList,
   m.task_ids.getD .nonList⟩

/-- `DatasetMetadata(**metadata_dict)`: Python's call machinery first raises
for missing required arguments, then the dataclass construction
(`__post_init__`) runs. -/
def DatasetMetadata.from_mapping (V : Vocabs) (chk : String → Bool)
    (m : RawMapping) : Except ConstructError DatasetMetadata :=
  if (missing_arguments m).length > 0 then
    .error (.missingArguments (missing_arguments m))
  else
    DatasetMetadata.construct V chk m.toRawFields

/-- The ways `from_readme` can fail: the `IndexError` from `content[0]` on
an empty file, the `TypeError` "did not find a yaml block", or a
construction failure. -/
inductive ReadmeError where
  | indexError
  | noYamlBlock
  | constructError (e : ConstructError)
  deriving DecidableEq, Repr

/-- `dict()` — the empty mapping, used for `yaml.safe_load(...) or dict()`. -/
def RawMapping.emptyDict : RawMapping :=
  ⟨none, none, none, none, none, none, none, none, none⟩

/-- `dict_from_readme` (lines 38-45) on the stripped lines of the file.
`content[0]` raises an `IndexError` when the file is empty; when the first
line is `---` and a later line is `---`, the lines strictly between them
are joined and parsed by the external `yaml.safe_load` capability
(`yamlLoad`, returning a mapping or nothing, `or dict()` supplying the
empty mapping); otherwise the function falls through and returns `None`. -/
def dict_from_readme (yamlLoad : String → Option RawMapping)
    (content : List String) : Except Unit (Option RawMapping) :=
  match content with
  | [] => .error ()
  | first :: rest =>
    if first == "---" && rest.contains "---" then
      let yamlblock := String.intercalate "\n" (rest.take (rest.indexOf "---"))
      .ok (some ((yamlLoad yamlblock).getD RawMapping.emptyDict))
    else
      .ok none

/-- `DatasetMetadata.from_readme` (lines 128-134): extract the front-matter
mapping and construct; when `dict_from_readme` returns `None`, raise
`TypeError("did not find a yaml block in ...")`. -/
def DatasetMetadata.from_readme (V : Vocabs) (chk : String → Bool)
    (yamlLoad : String → Option RawMapping) (content : List String) :
    Except ReadmeError DatasetMetadata :=
  match dict_from_readme yamlLoad content with
  | .error _ => .error .indexError
  | .ok (some m) =>
    match DatasetMetadata.from_mapping V chk m with
    | .ok md => .ok md
    | .error e => .error (.constructError e)
  | .ok none => .error .noYamlBlock

/-- Coerce a list of strings to the corresponding list of Python string
objects (the shape of a well-typed YAML list of strings). -/
def strs (xs : List String) : List PyObj := xs.map PyObj.str

/-- A fully string-typed input mapping: all nine keys present, each bound
to a list of strings. -/
structure StrFields where
  annotations_creators : List String
  language_creators : List String
  languages : List String
  licenses : List String
  multilinguality : List String
  size_categories : List String
  source_datasets : List String
  task_categories : List String
  task_ids : List String
  deriving DecidableEq, Repr

/-- The raw mapping corresponding to a string-typed input. -/
def StrFields.toRawMapping (f : StrFields) : RawMapping :=
  ⟨some (.list (strs f.annotations_creators)),
   some (.list (strs f.language_creators)),
   some (.list (strs f.languages)),
   some (.list (strs f.licenses)),
   some (.list (strs f.multilinguality)),
   some (.list (strs f.size_categories)),
   some (.list (strs f.source_datasets)),
   some (.list (strs f.task_categories)),
   some (.list (strs f.task_ids))⟩

/-! ### Basic lemmas about the embedded primitives -/

theorem PyObj.inStrList_eq_true {v : PyObj} {ref : List String}
    (h : v.inStrList ref = true) : ∃ s, v = .str s ∧ s ∈ ref := by
  cases v with
  | str s =>
    refine ⟨s, rfl, ?_⟩
    simpa [PyObj.inStrList] using h
  | iter mems => simp [PyObj.inStrList] at h
  | other => simp [PyObj.inStrList] at h

theorem PyObj.str_inStrList_iff {s : String} {ref : List String} :
    (PyObj.str s).inStrList ref = true ↔ s ∈ ref := by
  simp [PyObj.inStrList]

theorem mem_strs {v : PyObj} {xs : List String} :
    v ∈ strs xs ↔ ∃ s ∈ xs, v = .str s := by
  simp [strs, eq_comm]

theorem strs_eq_nil_iff {xs : List String} : strs xs = [] ↔ xs = [] := by
  simp [strs]

theorem containsOtherEscape_ok_true {v : PyObj}
    (h : containsOtherEscape v = .ok true) :
    (∃ s, v = .str s ∧ pyStrContains s "-other-" = true) ∨
    (∃ mems, v = .iter mems ∧ mems.contains "-other-" = true) := by
  cases v with
  | str s => exact Or.inl ⟨s, rfl, by simpa [containsOtherEscape] using h⟩
  | iter mems => exact Or.inr ⟨mems, rfl, by simpa [containsOtherEscape] using h⟩
  | other => simp [containsOtherEscape] at h

theorem startsWithOtherEscape_ok_true {v : PyObj}
    (h : startsWithOtherEscape v = .ok true) :
    ∃ s, v = .str s ∧ pyStartsWith s "other" = true := by
  cases v with
  | str s => exact ⟨s, rfl, by simpa [startsWithOtherEscape] using h⟩
  | iter mems => simp [startsWithOtherEscape] at h
  | other => simp [startsWithOtherEscape] at h

/-! ### `tagset_validator` lemmas -/

theorem tagset_validator_of_all_mem {values : List PyObj} {ref : List String}
    {n u : String} (h : ∀ v ∈ values, v.inStrList ref = true) :
    tagset_validator values ref n u = (values, none) := by
  unfold tagset_validator
  have hf : values.filter (fun v => !v.inStrList ref) = [] := by
    simp only [List.filter_eq_nil_iff]
    intro v hv
    simp [h v hv]
  simp [hf]

theorem tagset_validator_of_invalid {values : List PyObj} {ref : List String}
    {n u : String} (h : values.filter (fun v => !v.inStrList ref) ≠ []) :
    tagset_validator values ref n u =
      ([], some (tagsetErrorMessage (values.filter (fun v => !v.inStrList ref)) n u)) := by
  unfold tagset_validator
  have : (values.filter (fun v => !v.inStrList ref)).length > 0 :=
    List.length_pos.mpr h
  simp [this]

theorem tagset_validator_snd_none {values : List PyObj} {ref : List String}
    {n u : String} (h : (tagset_validator values ref n u).snd = none) :
    (tagset_validator values ref n u).fst = values ∧
      ∀ v ∈ values, v.inStrList ref = true := by
  by_cases hall : ∀ v ∈ values, v.inStrList ref = true
  · exact ⟨by rw [tagset_validator_of_all_mem hall], hall⟩
  · exfalso
    push_neg at hall
    obtain ⟨v, hv, hbad⟩ := hall
    have hmem : v ∈ values.filter (fun v => !v.inStrList ref) := by
      simp only [List.mem_filter]
      exact ⟨hv, by simp [hbad]⟩
    have : values.filter (fun v => !v.inStrList ref) ≠ [] :=
      List.ne_nil_of_mem hmem
    rw [tagset_validator_of_invalid this] at h
    simp at h

/-! ### `escape_validation_for_predicate` lemmas -/

theorem escape_validation_ok {vs ts fs : List PyObj} {p : PyObj → Except Unit Bool}
    (h : escape_validation_for_predicate vs p = .ok (ts, fs)) :
    (∀ v ∈ ts, p v = .ok true) ∧ (∀ v ∈ fs, p v = .ok false) ∧
      ts.length + fs.length = vs.length ∧ (∀ x, x ∈ vs ↔ (x ∈ ts ∨ x ∈ fs)) := by
  induction vs generalizing ts fs with
  | nil =>
    simp only [escape_validation_for_predicate] at h
    injection h with h
    injection h with h1 h2
    subst h1; subst h2
    simp
  | cons v vs ih =>
    simp only [escape_validation_for_predicate] at h
    cases hp : p v with
    | error e => rw [hp] at h; simp [Bind.bind, Except.bind] at h
    | ok b =>
      rw [hp] at h
      cases hrec : escape_validation_for_predicate vs p with
      | error e => rw [hrec] at h; simp [Bind.bind, Except.bind] at h
      | ok tf =>
        obtain ⟨ts', fs'⟩ := tf
        rw [hrec] at h
        obtain ⟨h1, h2, h3, h4⟩ := ih hrec
        cases b with
        | true =>
          simp only [Bind.bind, Except.bind] at h
          injection h with h
          injection h with ha hb
          subst ha; subst hb
          refine ⟨?_, h2, ?_, ?_⟩
          · intro x hx
            rcases List.mem_cons.mp hx with hx | hx
            · subst hx; exact hp
            · exact h1 x hx
          · simp [← h3]; omega
          · intro x
            simp only [List.mem_cons, h4]
            tauto
        | false =>
          simp only [Bind.bind, Except.bind] at h
          injection h with h
          injection h with ha hb
          subst ha; subst hb
          refine ⟨h1, ?_, ?_, ?_⟩
          · intro x hx
            rcases List.mem_cons.mp hx with hx | hx
            · subst hx; exact hp
            · exact h2 x hx
          · simp [← h3]; omega
          · intro x
            simp only [List.mem_cons, h4]
            tauto

theorem escape_validation_strs {xs : List String} {p : PyObj → Except Unit Bool}
    {q : String → Bool} (hp : ∀ s, p (.str s) = .ok (q s)) :
    escape_validation_for_predicate (strs xs) p =
      .ok (strs (xs.filter q), strs (xs.filter (fun s => !q s))) := by
  induction xs with
  | nil => simp [escape_validation_for_predicate, strs]
  | cons x xs ih =>
    simp only [strs, List.map_cons, escape_validation_for_predicate, hp x, Except.bind]
    rw [show (List.map PyObj.str xs) = strs xs from rfl, ih]
    cases hq : q x with
    | true => simp [Bind.bind, Except.bind, List.filter_cons, hq, strs]
    | false => simp [Bind.bind, Except.bind, List.filter_cons, hq, strs]

/-! ### `collectInvalidCodes` / `collectInvalidSources` lemmas -/

theorem collectInvalidCodes_strs (chk : String → Bool) (xs : List String) :
    collectInvalidCodes chk (strs xs) = .ok (strs (xs.filter (fun s => !chk s))) := by
  induction xs with
  | nil => simp [collectInvalidCodes, strs]
  | cons x xs ih =>
    simp only [strs, List.map_cons, collectInvalidCodes]
    rw [show (List.map PyObj.str xs) = strs xs from rfl, ih]
    cases hc : chk x with
    | true => simp [Bind.bind, Except.bind, List.filter_cons, hc, strs]
    | false => simp [Bind.bind, Except.bind, List.filter_cons, hc, strs]

theorem collectInvalidCodes_ok_nil {chk : String → Bool} {vs : List PyObj}
    (h : collectInvalidCodes chk vs = .ok []) :
    ∀ v ∈ vs, ∃ s, v = PyObj.str s ∧ chk s = true := by
  induction vs with
  | nil => simp
  | cons v vs ih =>
    cases v with
    | iter mems => simp [collectInvalidCodes] at h
    | other => simp [collectInvalidCodes] at h
    | str s =>
      simp only [collectInvalidCodes] at h
      cases hrec : collectInvalidCodes chk vs with
      | error e => rw [hrec] at h; simp [Bind.bind, Except.bind] at h
      | ok inv =>
        rw [hrec] at h
        simp only [Bind.bind, Except.bind] at h
        cases hc : chk s with
        | true =>
          rw [hc] at h
          simp only [if_true] at h
          injection h with h
          subst h
          intro x hx
          rcases List.mem_cons.mp hx with hx | hx
          · exact ⟨s, hx, hc⟩
          · exact ih hrec x hx
        | false =>
          rw [hc] at h
          simp at h

def sourceDatasetOk (s : String) : Bool :=
  s == "original" || s == "extended" || pyStartsWith s "extended|"

theorem collectInvalidSources_strs (xs : List String) :
    collectInvalidSources (strs xs) = .ok (strs (xs.filter (fun s => !sourceDatasetOk s))) := by
  induction xs with
  | nil => simp [collectInvalidSources, strs]
  | cons x xs ih =>
    simp only [strs, List.map_cons, collectInvalidSources]
    rw [show (List.map PyObj.str xs) = strs xs from rfl, ih]
    cases hc : sourceDatasetOk x with
    | true =>
      have hc' := hc
      simp only [sourceDatasetOk] at hc'
      simp [Bind.bind, Except.bind, List.filter_cons, hc, hc', strs]
    | false =>
      have hc' := hc
      simp only [sourceDatasetOk] at hc'
      simp [Bind.bind, Except.bind, List.filter_cons, hc, hc', strs]

theorem collectInvalidSources_ok_nil {vs : List PyObj}
    (h : collectInvalidSources vs = .ok []) :
    ∀ v ∈ vs, ∃ s, v = PyObj.str s ∧ sourceDatasetOk s = true := by
  induction vs with
  | nil => simp
  | cons v vs ih =>
    cases v with
    | iter mems => simp [collectInvalidSources] at h
    | other => simp [collectInvalidSources] at h
    | str s =>
      simp only [collectInvalidSources] at h
      cases hrec : collectInvalidSources vs with
      | error e => rw [hrec] at h; simp [Bind.bind, Except.bind] at h
      | ok inv =>
        rw [hrec] at h
        simp only [Bind.bind, Except.bind] at h
        cases hc : (s == "original" || s == "extended" || pyStartsWith s "extended|") with
        | true =>
          rw [hc] at h
          simp only [if_true] at h
          injection h with h
          subst h
          intro x hx
          rcases List.mem_cons.mp hx with hx | hx
          · exact ⟨s, hx, by simpa [sourceDatasetOk] using hc⟩
          · exact ih hrec x hx
        | false =>
          rw [hc] at h
          simp at h

/-! ### Success characterizations of the nine field validators -/

theorem language_code_must_be_recognized_strs (chk : String → Bool) (xs : List String) :
    DatasetMetadata.language_code_must_be_recognized chk (strs xs) =
      if (xs.filter (fun s => !chk s)).length > 0 then
        .ok ([], some (pyReprList (strs (xs.filter (fun s => !chk s))) ++
          " are not recognised as valid language codes (BCP47 norm), you can refer to https://github.com/LuminosoInsight/langcodes"))
      else .ok (strs xs, none) := by
  unfold DatasetMetadata.language_code_must_be_recognized
  rw [collectInvalidCodes_strs]
  simp only [Bind.bind, Except.bind, strs, List.length_map]

theorem language_code_ok_inversion {chk : String → Bool} {vs out : List PyObj}
    {e : Option String}
    (h : DatasetMetadata.language_code_must_be_recognized chk vs = .ok (out, e)) :
    (e = none → out = vs ∧ ∀ v ∈ vs, ∃ s, v = PyObj.str s ∧ chk s = true) ∧
      (e ≠ none → out = []) := by
  unfold DatasetMetadata.language_code_must_be_recognized at h
  cases hc : collectInvalidCodes chk vs with
  | error u => rw [hc] at h; simp [Bind.bind, Except.bind] at h
  | ok inv =>
    rw [hc] at h
    simp only [Bind.bind, Except.bind] at h
    by_cases hlen : inv.length > 0
    · rw [if_pos hlen] at h
      injection h with h
      injection h with h1 h2
      constructor
      · intro he; rw [← h2] at he; simp at he
      · intro _; exact h1.symm
    · rw [if_neg hlen] at h
      injection h with h
      injection h with h1 h2
      have hinv : inv = [] := by
        cases inv with
        | nil => rfl
        | cons a l => simp at hlen
      subst hinv
      constructor
      · intro _; exact ⟨h1.symm, collectInvalidCodes_ok_nil hc⟩
      · intro he; rw [← h2] at he; simp at he

/-- The common shape of the four escape-hatch validators (`licenses`,
`multilinguality`, `task_categories`, `task_ids`): partition by the escape
predicate, tagset-validate the remainder, return validated ++ escaped. -/
def escapedTagsetRun (vs : List PyObj) (p : PyObj → Except Unit Bool)
    (ref : List String) (n u : String) : Except Unit (List PyObj × Option String) := do
  let (others, to_validate) ← escape_validation_for_predicate vs p
  let (validated, error) := tagset_validator to_validate ref n u
  .ok (validated ++ others, error)

theorem licenses_as_run (V : Vocabs) (vs : List PyObj) :
    DatasetMetadata.licenses_must_be_in_known_set V vs =
      escapedTagsetRun vs containsOtherEscape V.known_licenses "licenses" known_licenses_url := rfl

theorem multilinguality_as_run (V : Vocabs) (vs : List PyObj) :
    DatasetMetadata.multilinguality_must_be_in_known_set V vs =
      escapedTagsetRun vs startsWithOtherEscape V.known_multilingualities
        "multilinguality" known_size_categories_url := rfl

theorem task_category_as_run (V : Vocabs) (vs : List PyObj) :
    DatasetMetadata.task_category_must_be_in_known_set V vs =
      escapedTagsetRun vs startsWithOtherEscape (V.known_task_ids.map Prod.fst)
        "tasks_ids" known_task_ids_url := rfl

theorem task_id_as_run (V : Vocabs) (vs : List PyObj) :
    DatasetMetadata.task_id_must_be_in_known_set V vs =
      escapedTagsetRun vs containsOtherEscape ((V.known_task_ids.map Prod.snd).flatten)
        "tasks_ids" known_task_ids_url := rfl

theorem escapedTagsetRun_ok_none {vs out : List PyObj} {p : PyObj → Except Unit Bool}
    {ref : List String} {n u : String}
    (h : escapedTagsetRun vs p ref n u = .ok (out, none)) :
    out.length = vs.length ∧ (∀ x, x ∈ out ↔ x ∈ vs) ∧
      ∀ v ∈ out, v.inStrList ref = true ∨ p v = .ok true := by
  unfold escapedTagsetRun at h
  cases hesc : escape_validation_for_predicate vs p with
  | error e => rw [hesc] at h; simp [Bind.bind, Except.bind] at h
  | ok otv =>
    obtain ⟨others, to_validate⟩ := otv
    rw [hesc] at h
    simp only [Bind.bind, Except.bind] at h
    rcases htag : tagset_validator to_validate ref n u with ⟨val, err⟩
    rw [htag] at h
    simp only at h
    injection h with h
    injection h with h1 h2
    subst h2
    obtain ⟨hothers, hfalse, hlen, hmem⟩ := escape_validation_ok hesc
    have hsnd : (tagset_validator to_validate ref n u).snd = none := by rw [htag]
    obtain ⟨hfst, hall⟩ := tagset_validator_snd_none hsnd
    rw [htag] at hfst
    simp only at hfst
    subst hfst
    subst h1
    refine ⟨?_, ?_, ?_⟩
    · rw [List.length_append]; omega
    · intro x
      rw [List.mem_append, hmem x]
      tauto
    · intro v hv
      rcases List.mem_append.mp hv with hv | hv
      · exact Or.inl (hall v hv)
      · exact Or.inr (hothers v hv)

theorem escapedTagsetRun_strs {xs : List String} {p : PyObj → Except Unit Bool}
    {q : String → Bool} (hp : ∀ s, p (.str s) = .ok (q s)) (ref : List String)
    (n u : String) :
    escapedTagsetRun (strs xs) p ref n u =
      .ok ((tagset_validator (strs (xs.filter (fun s => !q s))) ref n u).fst ++
            strs (xs.filter q),
           (tagset_validator (strs (xs.filter (fun s => !q s))) ref n u).snd) := by
  unfold escapedTagsetRun
  rw [escape_validation_strs hp]
  simp only [Bind.bind, Except.bind]

/-! ### Inversion of a successful construction -/

theorem construct_ok_inversion {V : Vocabs} {chk : String → Bool} {r : RawFields}
    {md : DatasetMetadata} (h : DatasetMetadata.construct V chk r = .ok md) :
    (∀ nv ∈ r.entries, nv.snd.isBasicTypingError = false) ∧
    DatasetMetadata.annotations_creators_must_be_in_known_set V r.annotations_creators.toList
      = (md.annotations_creators, none) ∧
    DatasetMetadata.language_creators_must_be_in_known_set V r.language_creators.toList
      = (md.language_creators, none) ∧
    (∃ e, DatasetMetadata.language_code_must_be_recognized chk md.language_creators
      = .ok (md.languages, e)) ∧
    DatasetMetadata.licenses_must_be_in_known_set V r.licenses.toList
      = .ok (md.licenses, none) ∧
    DatasetMetadata.multilinguality_must_be_in_known_set V r.multilinguality.toList
      = .ok (md.multilinguality, none) ∧
    DatasetMetadata.size_categories_must_be_in_known_set V r.size_categories.toList
      = (md.size_categories, none) ∧
    DatasetMetadata.source_datasets_must_be_in_known_set r.source_datasets.toList
      = .ok (md.source_datasets, none) ∧
    DatasetMetadata.task_category_must_be_in_known_set V r.task_categories.toList
      = .ok (md.task_categories, none) ∧
    DatasetMetadata.task_id_must_be_in_known_set V r.task_ids.toList
      = .ok (md.task_ids, none) := by
  unfold DatasetMetadata.construct at h
  by_cases hpre : (basic_typing_errors r).length > 0
  · rw [if_pos hpre] at h
    exact absurd h (by simp)
  · rw [if_neg hpre] at h
    have hprelist : basic_typing_errors r = [] := by
      have := Nat.eq_zero_of_not_pos hpre
      exact List.length_eq_zero.mp this
    have hpre' : ∀ nv ∈ r.entries, nv.snd.isBasicTypingError = false := by
      intro nv hnv
      have := (List.filterMap_eq_nil_iff.mp hprelist) nv hnv
      by_cases hb : nv.snd.isBasicTypingError
      · rw [if_pos hb] at this; exact absurd this (by simp)
      · simpa using hb
    unfold DatasetMetadata.post_validate at h
    rcases hac : DatasetMetadata.annotations_creators_must_be_in_known_set V
        r.annotations_creators.toList with ⟨ac, ace⟩
    rw [hac] at h
    rcases hlc : DatasetMetadata.language_creators_must_be_in_known_set V
        r.language_creators.toList with ⟨lcv, lce⟩
    rw [hlc] at h
    simp only at h
    cases hlang : DatasetMetadata.language_code_must_be_recognized chk lcv with
    | error u => rw [hlang] at h; simp [liftCrash, Bind.bind, Except.bind] at h
    | ok lp =>
    obtain ⟨langs, lange⟩ := lp
    rw [hlang] at h
    simp only [liftCrash, Bind.bind, Except.bind] at h
    cases hlic : DatasetMetadata.licenses_must_be_in_known_set V r.licenses.toList with
    | error u => rw [hlic] at h; simp [liftCrash, Bind.bind, Except.bind] at h
    | ok licp =>
    obtain ⟨licv, lice⟩ := licp
    rw [hlic] at h
    simp only [liftCrash, Bind.bind, Except.bind] at h
    cases hmul : DatasetMetadata.multilinguality_must_be_in_known_set V
        r.multilinguality.toList with
    | error u => rw [hmul] at h; simp [liftCrash, Bind.bind, Except.bind] at h
    | ok mulp =>
    obtain ⟨mulv, mule⟩ := mulp
    rw [hmul] at h
    simp only [liftCrash, Bind.bind, Except.bind] at h
    rcases hsz : DatasetMetadata.size_categories_must_be_in_known_set V
        r.size_categories.toList with ⟨szv, sze⟩
    rw [hsz] at h
    simp only at h
    cases hsrc : DatasetMetadata.source_datasets_must_be_in_known_set
        r.source_datasets.toList with
    | error u => rw [hsrc] at h; simp [liftCrash, Bind.bind, Except.bind] at h
    | ok srcp =>
    obtain ⟨srcv, srce⟩ := srcp
    rw [hsrc] at h
    simp only [liftCrash, Bind.bind, Except.bind] at h
    cases htc : DatasetMetadata.task_category_must_be_in_known_set V
        r.task_categories.toList with
    | error u => rw [htc] at h; simp [liftCrash, Bind.bind, Except.bind] at h
    | ok tcp =>
    obtain ⟨tcv, tce⟩ := tcp
    rw [htc] at h
    simp only [liftCrash, Bind.bind, Except.bind] at h
    cases hti : DatasetMetadata.task_id_must_be_in_known_set V r.task_ids.toList with
    | error u => rw [hti] at h; simp [liftCrash, Bind.bind, Except.bind] at h
    | ok tip =>
    obtain ⟨tiv, tie⟩ := tip
    rw [hti] at h
    simp only [liftCrash, Bind.bind, Except.bind] at h
    by_cases hrep : (([("annotations_creators", ace), ("language_creators", lce),
        ("licenses", lice), ("multilinguality", mule), ("size_categories", sze),
        ("source_datasets", srce), ("task_categories", tce),
        ("task_ids", tie)] : List (String × Option String)).filterMap
          (fun fe => fe.snd.map (fun e => (fe.fst, e)))).length > 0
    · rw [if_pos hrep] at h
      exact absurd h (by simp)
    · rw [if_neg hrep] at h
      have hrepnil : ([("annotations_creators", ace), ("language_creators", lce),
          ("licenses", lice), ("multilinguality", mule), ("size_categories", sze),
          ("source_datasets", srce), ("task_categories", tce),
          ("task_ids", tie)] : List (String × Option String)).filterMap
            (fun fe => fe.snd.map (fun e => (fe.fst, e))) = [] := by
        have := Nat.eq_zero_of_not_pos hrep
        exact List.length_eq_zero.mp this
      have hall := List.filterMap_eq_nil_iff.mp hrepnil
      have hace : ace = none := by
        have := hall ("annotations_creators", ace) (by simp)
        simpa using this
      have hlce : lce = none := by
        have := hall ("language_creators", lce) (by simp)
        simpa using this
      have hlice : lice = none := by
        have := hall ("licenses", lice) (by simp)
        simpa using this
      have hmule : mule = none := by
        have := hall ("multilinguality", mule) (by simp)
        simpa using this
      have hsze : sze = none := by
        have := hall ("size_categories", sze) (by simp)
        simpa using this
      have hsrce : srce = none := by
        have := hall ("source_datasets", srce) (by simp)
        simpa using this
      have htce : tce = none := by
        have := hall ("task_categories", tce) (by simp)
        simpa using this
      have htie : tie = none := by
        have := hall ("task_ids", tie) (by simp)
        simpa using this
      injection h with h
      subst h
      subst hace; subst hlce; subst hlice; subst hmule
      subst hsze; subst hsrce; subst htce; subst htie
      exact ⟨hpre', by simp [hac], by simp [hlc], ⟨lange, by simp [hlang]⟩, by simp [hlic],
        by simp [hmul], by simp [hsz], by simp [hsrc], by simp [htc], by simp [hti]⟩

theorem annotations_creators_as_tagset (V : Vocabs) (vs : List PyObj) :
    DatasetMetadata.annotations_creators_must_be_in_known_set V vs =
      tagset_validator vs V.creators_annotations "annotations" known_creators_url := rfl

theorem language_creators_as_tagset (V : Vocabs) (vs : List PyObj) :
    DatasetMetadata.language_creators_must_be_in_known_set V vs =
      tagset_validator vs V.creators_language "annotations" known_creators_url := rfl

theorem size_categories_as_tagset (V : Vocabs) (vs : List PyObj) :
    DatasetMetadata.size_categories_must_be_in_known_set V vs =
      tagset_validator vs V.known_size_categories "size_categories" known_size_categories_url := rfl

theorem source_datasets_ok_none {vs out : List PyObj}
    (h : DatasetMetadata.source_datasets_must_be_in_known_set vs = .ok (out, none)) :
    out = vs ∧ ∀ v ∈ vs, ∃ s, v = PyObj.str s ∧ sourceDatasetOk s = true := by
  unfold DatasetMetadata.source_datasets_must_be_in_known_set at h
  cases hc : collectInvalidSources vs with
  | error u => rw [hc] at h; simp [Bind.bind, Except.bind] at h
  | ok inv =>
    rw [hc] at h
    simp only [Bind.bind, Except.bind] at h
    by_cases hlen : inv.length > 0
    · rw [if_pos hlen] at h
      exact absurd h (by simp)
    · rw [if_neg hlen] at h
      injection h with h
      injection h with h1 h2
      have hinv : inv = [] := by
        cases inv with
        | nil => rfl
        | cons a l => simp at hlen
      subst hinv
      exact ⟨h1.symm, collectInvalidSources_ok_nil hc⟩

theorem RawVal.of_not_basicTypingError {v : RawVal} (h : v.isBasicTypingError = false) :
    ∃ s tl, v = .list (.str s :: tl) := by
  cases v with
  | nonList => simp [RawVal.isBasicTypingError] at h
  | list xs =>
    cases xs with
    | nil => simp [RawVal.isBasicTypingError] at h
    | cons a tl =>
      cases a with
      | str s => exact ⟨s, tl, rfl⟩
      | iter mems => simp [RawVal.isBasicTypingError] at h
      | other => simp [RawVal.isBasicTypingError] at h

/-- C2 (amended): on every input mapping on which construction succeeds,
each of the eight fields other than `languages` is a non-empty list whose
every element belongs to the field's reference vocabulary or matches its
escape-hatch pattern; the elements are strings except that, in `licenses`
and `task_ids`, an element may also be a non-string iterable having
`-other-` among its members (Python's `in` is a membership test on a
container, so such elements escape validation and are stored verbatim);
the `languages` field is a (possibly empty) list of strings each of which
the BCP-47 checker accepts. -/
theorem construction_success_field_invariants {V : Vocabs} {chk : String → Bool}
    {m : RawMapping} {md : DatasetMetadata}
    (h : DatasetMetadata.from_mapping V chk m = .ok md) :
    (md.annotations_creators ≠ [] ∧ ∀ v ∈ md.annotations_creators,
      ∃ s, v = PyObj.str s ∧ s ∈ V.creators_annotations) ∧
    (md.language_creators ≠ [] ∧ ∀ v ∈ md.language_creators,
      ∃ s, v = PyObj.str s ∧ s ∈ V.creators_language) ∧
    (∀ v ∈ md.languages, ∃ s, v = PyObj.str s ∧ chk s = true) ∧
    (md.licenses ≠ [] ∧ ∀ v ∈ md.licenses,
      (∃ s, v = PyObj.str s ∧ (s ∈ V.known_licenses ∨ pyStrContains s "-other-" = true)) ∨
      (∃ mems, v = PyObj.iter mems ∧ mems.contains "-other-" = true)) ∧
    (md.multilinguality ≠ [] ∧ ∀ v ∈ md.multilinguality,
      ∃ s, v = PyObj.str s ∧ (s ∈ V.known_multilingualities ∨ pyStartsWith s "other" = true)) ∧
    (md.size_categories ≠ [] ∧ ∀ v ∈ md.size_categories,
      ∃ s, v = PyObj.str s ∧ s ∈ V.known_size_categories) ∧
    (md.source_datasets ≠ [] ∧ ∀ v ∈ md.source_datasets,
      ∃ s, v = PyObj.str s ∧ sourceDatasetOk s = true) ∧
    (md.task_categories ≠ [] ∧ ∀ v ∈ md.task_categories,
      ∃ s, v = PyObj.str s ∧ (s ∈ V.known_task_ids.map Prod.fst ∨ pyStartsWith s "other" = true)) ∧
    (md.task_ids ≠ [] ∧ ∀ v ∈ md.task_ids,
      (∃ s, v = PyObj.str s ∧
        (s ∈ (V.known_task_ids.map Prod.snd).flatten ∨ pyStrContains s "-other-" = true)) ∨
      (∃ mems, v = PyObj.iter mems ∧ mems.contains "-other-" = true)) := by
  unfold DatasetMetadata.from_mapping at h
  by_cases hmiss : (missing_arguments m).length > 0
  · rw [if_pos hmiss] at h; exact absurd h (by simp)
  · rw [if_neg hmiss] at h
    obtain ⟨hpre, hac, hlc, ⟨e, hlang⟩, hlic, hmul, hsz, hsrc, htc, hti⟩ :=
      construct_ok_inversion h
    have hne : ∀ nm (v : RawVal), (nm, v) ∈ m.toRawFields.entries → v.toList ≠ [] := by
      intro nm v hv
      have hb := hpre (nm, v) hv
      simp only at hb
      obtain ⟨s, tl, hlist⟩ := RawVal.of_not_basicTypingError hb
      rw [hlist]; simp [RawVal.toList]
    refine ⟨?_, ?_, ?_, ?_, ?_, ?_, ?_, ?_, ?_⟩
    · -- annotations_creators
      rw [annotations_creators_as_tagset] at hac
      obtain ⟨hfst, hmem⟩ := tagset_validator_snd_none (show _ = none by rw [hac])
      rw [hac] at hfst
      simp only at hfst
      constructor
      · rw [hfst]
        exact hne "annotations_creators" _ (by simp [RawFields.entries])
      · intro v hv
        rw [hfst] at hv
        obtain ⟨s, rfl, hs⟩ := PyObj.inStrList_eq_true (hmem v hv)
        exact ⟨s, rfl, hs⟩
    · -- language_creators
      rw [language_creators_as_tagset] at hlc
      obtain ⟨hfst, hmem⟩ := tagset_validator_snd_none (show _ = none by rw [hlc])
      rw [hlc] at hfst
      simp only at hfst
      constructor
      · rw [hfst]
        exact hne "language_creators" _ (by simp [RawFields.entries])
      · intro v hv
        rw [hfst] at hv
        obtain ⟨s, rfl, hs⟩ := PyObj.inStrList_eq_true (hmem v hv)
        exact ⟨s, rfl, hs⟩
    · -- languages
      obtain ⟨hnone, hsome⟩ := language_code_ok_inversion hlang
      cases e with
      | none =>
        obtain ⟨heq, hv⟩ := hnone rfl
        intro v hvm
        exact hv v (heq ▸ hvm)
      | some msg =>
        have : md.languages = [] := hsome (by simp)
        rw [this]
        simp
    · -- licenses
      rw [licenses_as_run] at hlic
      obtain ⟨hlen, hmem, hval⟩ := escapedTagsetRun_ok_none hlic
      constructor
      · intro hnil
        rw [hnil] at hlen
        have hlist := hne "licenses" m.toRawFields.licenses (by simp [RawFields.entries])
        have hz : m.toRawFields.licenses.toList.length = 0 := by simpa using hlen.symm
        exact hlist (List.length_eq_zero.mp hz)
      · intro v hv
        rcases hval v hv with hin | hesc
        · obtain ⟨s, rfl, hs⟩ := PyObj.inStrList_eq_true hin
          exact Or.inl ⟨s, rfl, Or.inl hs⟩
        · rcases containsOtherEscape_ok_true hesc with ⟨s, rfl, hs⟩ | ⟨mems, rfl, hm⟩
          · exact Or.inl ⟨s, rfl, Or.inr hs⟩
          · exact Or.inr ⟨mems, rfl, hm⟩
    · -- multilinguality
      rw [multilinguality_as_run] at hmul
      obtain ⟨hlen, hmem, hval⟩ := escapedTagsetRun_ok_none hmul
      constructor
      · intro hnil
        rw [hnil] at hlen
        have hlist := hne "multilinguality" m.toRawFields.multilinguality (by simp [RawFields.entries])
        have hz : m.toRawFields.multilinguality.toList.length = 0 := by simpa using hlen.symm
        exact hlist (List.length_eq_zero.mp hz)
      · intro v hv
        rcases hval v hv with hin | hesc
        · obtain ⟨s, rfl, hs⟩ := PyObj.inStrList_eq_true hin
          exact ⟨s, rfl, Or.inl hs⟩
        · obtain ⟨s, rfl, hs⟩ := startsWithOtherEscape_ok_true hesc
          exact ⟨s, rfl, Or.inr hs⟩
    · -- size_categories
      rw [size_categories_as_tagset] at hsz
      obtain ⟨hfst, hmem⟩ := tagset_validator_snd_none (show _ = none by rw [hsz])
      rw [hsz] at hfst
      simp only at hfst
      constructor
      · rw [hfst]
        exact hne "size_categories" _ (by simp [RawFields.entries])
      · intro v hv
        rw [hfst] at hv
        obtain ⟨s, rfl, hs⟩ := PyObj.inStrList_eq_true (hmem v hv)
        exact ⟨s, rfl, hs⟩
    · -- source_datasets
      obtain ⟨hfst, hval⟩ := source_datasets_ok_none hsrc
      constructor
      · rw [hfst]
        exact hne "source_datasets" _ (by simp [RawFields.entries])
      · intro v hv
        exact hval v (hfst ▸ hv)
    · -- task_categories
      rw [task_category_as_run] at htc
      obtain ⟨hlen, hmem, hval⟩ := escapedTagsetRun_ok_none htc
      constructor
      · intro hnil
        rw [hnil] at hlen
        have hlist := hne "task_categories" m.toRawFields.task_categories (by simp [RawFields.entries])
        have hz : m.toRawFields.task_categories.toList.length = 0 := by simpa using hlen.symm
        exact hlist (List.length_eq_zero.mp hz)
      · intro v hv
        rcases hval v hv with hin | hesc
        · obtain ⟨s, rfl, hs⟩ := PyObj.inStrList_eq_true hin
          exact ⟨s, rfl, Or.inl hs⟩
        · obtain ⟨s, rfl, hs⟩ := startsWithOtherEscape_ok_true hesc
          exact ⟨s, rfl, Or.inr hs⟩
    · -- task_ids
      rw [task_id_as_run] at hti
      obtain ⟨hlen, hmem, hval⟩ := escapedTagsetRun_ok_none hti
      constructor
      · intro hnil
        rw [hnil] at hlen
        have hlist := hne "task_ids" m.toRawFields.task_ids (by simp [RawFields.entries])
        have hz : m.toRawFields.task_ids.toList.length = 0 := by simpa using hlen.symm
        exact hlist (List.length_eq_zero.mp hz)
      · intro v hv
        rcases hval v hv with hin | hesc
        · obtain ⟨s, rfl, hs⟩ := PyObj.inStrList_eq_true hin
          exact Or.inl ⟨s, rfl, Or.inl hs⟩
        · rcases containsOtherEscape_ok_true hesc with ⟨s, rfl, hs⟩ | ⟨mems, rfl, hm⟩
          · exact Or.inl ⟨s, rfl, Or.inr hs⟩
          · exact Or.inr ⟨mems, rfl, hm⟩

/-! ### Forward computation on fully string-typed inputs -/

/-- The error component of a validator that returned normally (only used on
calls that provably do not raise). -/
def errOf : Except Unit (List PyObj × Option String) → Option String
  | .ok p => p.snd
  | .error _ => none

/-- The value component of a validator that returned normally (only used on
calls that provably do not raise). -/
def valOf : Except Unit (List PyObj × Option String) → List PyObj
  | .ok p => p.fst
  | .error _ => []

theorem isBasicTypingError_strs (xs : List String) :
    (RawVal.list (strs xs)).isBasicTypingError = xs.isEmpty := by
  cases xs with
  | nil => rfl
  | cons a l => rfl

theorem tagset_validator_fst_strs (xs : List String) (ref : List String) (n u : String) :
    ∃ ys, (tagset_validator (strs xs) ref n u).fst = strs ys := by
  unfold tagset_validator
  by_cases hc : ((strs xs).filter (fun v => !v.inStrList ref)).length > 0
  · rw [if_pos hc]; exact ⟨[], rfl⟩
  · rw [if_neg hc]; exact ⟨xs, rfl⟩

theorem language_code_strs_isOk (chk : String → Bool) (xs : List String) :
    ∃ pr, DatasetMetadata.language_code_must_be_recognized chk (strs xs) = .ok pr := by
  rw [language_code_must_be_recognized_strs]
  by_cases hc : ((xs.filter (fun s => !chk s)).length > 0)
  · rw [if_pos hc]; exact ⟨_, rfl⟩
  · rw [if_neg hc]; exact ⟨_, rfl⟩

theorem licenses_strs_isOk (V : Vocabs) (xs : List String) :
    ∃ pr, DatasetMetadata.licenses_must_be_in_known_set V (strs xs) = .ok pr := by
  rw [licenses_as_run, escapedTagsetRun_strs (fun s => rfl)]
  exact ⟨_, rfl⟩

theorem multilinguality_strs_isOk (V : Vocabs) (xs : List String) :
    ∃ pr, DatasetMetadata.multilinguality_must_be_in_known_set V (strs xs) = .ok pr := by
  rw [multilinguality_as_run, escapedTagsetRun_strs (fun s => rfl)]
  exact ⟨_, rfl⟩

theorem task_category_strs_isOk (V : Vocabs) (xs : List String) :
    ∃ pr, DatasetMetadata.task_category_must_be_in_known_set V (strs xs) = .ok pr := by
  rw [task_category_as_run, escapedTagsetRun_strs (fun s => rfl)]
  exact ⟨_, rfl⟩

theorem task_id_strs_isOk (V : Vocabs) (xs : List String) :
    ∃ pr, DatasetMetadata.task_id_must_be_in_known_set V (strs xs) = .ok pr := by
  rw [task_id_as_run, escapedTagsetRun_strs (fun s => rfl)]
  exact ⟨_, rfl⟩

theorem source_datasets_strs_isOk (xs : List String) :
    ∃ pr, DatasetMetadata.source_datasets_must_be_in_known_set (strs xs) = .ok pr := by
  unfold DatasetMetadata.source_datasets_must_be_in_known_set
  rw [collectInvalidSources_strs]
  simp only [Bind.bind, Except.bind]
  by_cases hc : ((strs (xs.filter (fun s => !sourceDatasetOk s))).length > 0)
  · rw [if_pos hc]; exact ⟨_, rfl⟩
  · rw [if_neg hc]; exact ⟨_, rfl⟩

/-- The per-field error observations of the eight aggregated fields, each
computed by running that field's validator standalone on the (string-typed)
input; in the insertion order of the `errors` mapping of `__post_init__`.
The `languages` field has no entry, exactly as in the source. -/
def fieldErr (V : Vocabs) (chk : String → Bool) (f : StrFields) :
    List (String × Option String) :=
  [("annotations_creators",
      (DatasetMetadata.annotations_creators_must_be_in_known_set V (strs f.annotations_creators)).snd),
   ("language_creators",
      (DatasetMetadata.language_creators_must_be_in_known_set V (strs f.language_creators)).snd),
   ("licenses", errOf (DatasetMetadata.licenses_must_be_in_known_set V (strs f.licenses))),
   ("multilinguality", errOf (DatasetMetadata.multilinguality_must_be_in_known_set V (strs f.multilinguality))),
   ("size_categories",
      (DatasetMetadata.size_categories_must_be_in_known_set V (strs f.size_categories)).snd),
   ("source_datasets", errOf (DatasetMetadata.source_datasets_must_be_in_known_set (strs f.source_datasets))),
   ("task_categories", errOf (DatasetMetadata.task_category_must_be_in_known_set V (strs f.task_categories))),
   ("task_ids", errOf (DatasetMetadata.task_id_must_be_in_known_set V (strs f.task_ids)))]

/-- The aggregated error report on a string-typed input: one entry per
failing aggregated field, in insertion order. -/
def strReport (V : Vocabs) (chk : String → Bool) (f : StrFields) :
    List (String × String) :=
  (fieldErr V chk f).filterMap (fun fe => fe.snd.map (fun e => (fe.fst, e)))

/-- The record `__post_init__` assembles on a string-typed input (its
`languages` field is computed from the validated `language_creators`). -/
def strRecord (V : Vocabs) (chk : String → Bool) (f : StrFields) : DatasetMetadata :=
  ⟨(DatasetMetadata.annotations_creators_must_be_in_known_set V (strs f.annotations_creators)).fst,
   (DatasetMetadata.language_creators_must_be_in_known_set V (strs f.language_creators)).fst,
   valOf (DatasetMetadata.language_code_must_be_recognized chk
     (DatasetMetadata.language_creators_must_be_in_known_set V (strs f.language_creators)).fst),
   valOf (DatasetMetadata.licenses_must_be_in_known_set V (strs f.licenses)),
   valOf (DatasetMetadata.multilinguality_must_be_in_known_set V (strs f.multilinguality)),
   (DatasetMetadata.size_categories_must_be_in_known_set V (strs f.size_categories)).fst,
   valOf (DatasetMetadata.source_datasets_must_be_in_known_set (strs f.source_datasets)),
   valOf (DatasetMetadata.task_category_must_be_in_known_set V (strs f.task_categories)),
   valOf (DatasetMetadata.task_id_must_be_in_known_set V (strs f.task_ids))⟩

theorem language_code_after_tagset_isOk (chk : String → Bool) (V : Vocabs)
    (xs : List String) :
    ∃ pr, DatasetMetadata.language_code_must_be_recognized chk
      ((DatasetMetadata.language_creators_must_be_in_known_set V (strs xs)).fst) = .ok pr := by
  rw [language_creators_as_tagset]
  obtain ⟨ys, hys⟩ := tagset_validator_fst_strs xs V.creators_language "annotations" known_creators_url
  rw [hys]
  exact language_code_strs_isOk chk ys

theorem from_mapping_strs (V : Vocabs) (chk : String → Bool) (f : StrFields)
    (h1 : f.annotations_creators ≠ []) (h2 : f.language_creators ≠ [])
    (h3 : f.languages ≠ []) (h4 : f.licenses ≠ []) (h5 : f.multilinguality ≠ [])
    (h6 : f.size_categories ≠ []) (h7 : f.source_datasets ≠ [])
    (h8 : f.task_categories ≠ []) (h9 : f.task_ids ≠ []) :
    DatasetMetadata.from_mapping V chk f.toRawMapping =
      if (strReport V chk f).length > 0 then
        .error (.validationError (strReport V chk f))
      else .ok (strRecord V chk f) := by
  unfold DatasetMetadata.from_mapping
  have hmiss : missing_arguments f.toRawMapping = [] := by
    simp [missing_arguments, RawMapping.entries, StrFields.toRawMapping]
  rw [hmiss]
  rw [if_neg (by simp)]
  unfold DatasetMetadata.construct
  have hbte : basic_typing_errors (f.toRawMapping.toRawFields) = [] := by
    simp [basic_typing_errors, RawFields.entries, StrFields.toRawMapping,
      RawMapping.toRawFields, isBasicTypingError_strs, List.isEmpty_iff,
      h1, h2, h3, h4, h5, h6, h7, h8, h9]
  rw [hbte]
  rw [if_neg (by simp)]
  unfold DatasetMetadata.post_validate
  simp only [StrFields.toRawMapping, RawMapping.toRawFields, Option.getD_some, RawVal.toList]
  rcases hac : DatasetMetadata.annotations_creators_must_be_in_known_set V
      (strs f.annotations_creators) with ⟨ac, ace⟩
  rcases hlc : DatasetMetadata.language_creators_must_be_in_known_set V
      (strs f.language_creators) with ⟨lcv, lce⟩
  rcases hsz : DatasetMetadata.size_categories_must_be_in_known_set V
      (strs f.size_categories) with ⟨szv, sze⟩
  simp only [] 
  obtain ⟨⟨langs, lange⟩, hlang⟩ := language_code_after_tagset_isOk chk V f.language_creators
  rw [hlc] at hlang
  simp only [] at hlang
  rw [hlang]
  simp only [liftCrash, Bind.bind, Except.bind]
  obtain ⟨⟨licv, lice⟩, hlic⟩ := licenses_strs_isOk V f.licenses
  rw [hlic]
  simp only [liftCrash, Bind.bind, Except.bind]
  obtain ⟨⟨mulv, mule⟩, hmul⟩ := multilinguality_strs_isOk V f.multilinguality
  rw [hmul]
  simp only [liftCrash, Bind.bind, Except.bind]
  obtain ⟨⟨srcv, srce⟩, hsrc⟩ := source_datasets_strs_isOk f.source_datasets
  rw [hsrc]
  simp only [liftCrash, Bind.bind, Except.bind]
  obtain ⟨⟨tcv, tce⟩, htc⟩ := task_category_strs_isOk V f.task_categories
  rw [htc]
  simp only [liftCrash, Bind.bind, Except.bind]
  obtain ⟨⟨tiv, tie⟩, hti⟩ := task_id_strs_isOk V f.task_ids
  rw [hti]
  simp only [liftCrash, Bind.bind, Except.bind]
  simp [strReport, strRecord, fieldErr, errOf, valOf,
    hac, hlc, hlang, hlic, hmul, hsz, hsrc, htc, hti]

/-! ### Concrete example data (instantiating the external vocabularies and
the BCP-47 checker) used by witnesses and counterexamples -/

/-- A small concrete instance of the reference vocabularies. -/
def exVocab : Vocabs :=
  ⟨["mit"], [("text-classification", ["sentiment-analysis"])], ["found"], ["found"],
   ["10K"], ["monolingual"]⟩

/-- A fully valid string-typed input mapping for `exVocab`. -/
def exFields : StrFields :=
  ⟨["found"], ["found"], ["en"], ["mit"], ["monolingual"], ["10K"], ["original"],
   ["text-classification"], ["sentiment-analysis"]⟩

/-- The record built from `exFields` when the checker accepts every code
(note `languages := ["found"]`: it is the validated `language_creators`). -/
def exRecord : DatasetMetadata :=
  ⟨strs ["found"], strs ["found"], strs ["found"], strs ["mit"], strs ["monolingual"],
   strs ["10K"], strs ["original"], strs ["text-classification"], strs ["sentiment-analysis"]⟩

/-- The record built from `exFields` when the checker rejects `"found"`
(note `languages := []`). -/
def exRecordNoLang : DatasetMetadata :=
  ⟨strs ["found"], strs ["found"], [], strs ["mit"], strs ["monolingual"],
   strs ["10K"], strs ["original"], strs ["text-classification"], strs ["sentiment-analysis"]⟩

/-! ### Claim theorems -/

/-- C8: `tagset_validator` returns the values unchanged with no error when
every value is in the reference set, and otherwise returns the empty list
with an error message built from the list of ALL invalid elements (the
filter keeps every value outside the reference set, not just the first). -/
theorem tagset_validator_contract (values : List PyObj) (ref : List String)
    (n u : String) :
    ((∀ v ∈ values, v.inStrList ref = true) →
      tagset_validator values ref n u = (values, none)) ∧
    ((¬ ∀ v ∈ values, v.inStrList ref = true) →
      tagset_validator values ref n u =
        ([], some (tagsetErrorMessage (values.filter (fun v => !v.inStrList ref)) n u)) ∧
      ∀ v ∈ values, v.inStrList ref = false →
        v ∈ values.filter (fun v => !v.inStrList ref)) := by
  constructor
  · exact tagset_validator_of_all_mem
  · intro hnot
    push_neg at hnot
    obtain ⟨v, hv, hbad⟩ := hnot
    have hbad' : v.inStrList ref = false := by
      cases hb : v.inStrList ref
      · rfl
      · exact absurd hb hbad
    have hne : values.filter (fun v => !v.inStrList ref) ≠ [] :=
      List.ne_nil_of_mem (List.mem_filter.mpr ⟨hv, by simp [hbad']⟩)
    refine ⟨tagset_validator_of_invalid hne, ?_⟩
    intro w hw hwbad
    exact List.mem_filter.mpr ⟨hw, by simp [hwbad]⟩

/-- Witness for C8: both branches exercised at concrete inputs. -/
theorem tagset_validator_contract_witness :
    tagset_validator [PyObj.str "a"] ["a"] "n" "u" = ([PyObj.str "a"], none) ∧
    tagset_validator [PyObj.str "a", PyObj.str "zzz"] ["a"] "n" "u" =
      ([], some (tagsetErrorMessage
        ([PyObj.str "a", PyObj.str "zzz"].filter (fun v => !v.inStrList ["a"])) "n" "u")) :=
  ⟨(tagset_validator_contract [PyObj.str "a"] ["a"] "n" "u").1 (by decide),
   ((tagset_validator_contract [PyObj.str "a", PyObj.str "zzz"] ["a"] "n" "u").2
     (by decide)).1⟩

theorem strs_all_inStrList {xs ref : List String} (h : ∀ s ∈ xs, s ∈ ref) :
    ∀ v ∈ strs xs, v.inStrList ref = true := by
  intro v hv
  obtain ⟨s, hs, rfl⟩ := mem_strs.mp hv
  simpa [PyObj.str_inStrList_iff] using h s hs

theorem mem_strs_filter_append (q : String → Bool) (xs : List String) :
    ∀ x, (x ∈ strs (xs.filter (fun s => !q s)) ++ strs (xs.filter q)) ↔ x ∈ strs xs := by
  intro x
  simp only [List.mem_append, mem_strs]
  constructor
  · rintro (⟨s, hs, rfl⟩ | ⟨s, hs, rfl⟩) <;> exact ⟨s, (List.mem_filter.mp hs).1, rfl⟩
  · rintro ⟨s, hs, rfl⟩
    by_cases hq : q s
    · exact Or.inr ⟨s, List.mem_filter.mpr ⟨hs, hq⟩, rfl⟩
    · exact Or.inl ⟨s, List.mem_filter.mpr ⟨hs, by simp [hq]⟩, rfl⟩

/-- C9: task-id validation accepts every list whose ids each occur in some
category's options of the task taxonomy or contain the substring
`-other-`; the validator consults only the taxonomy (it takes no declared
categories at all), and the accepted list has exactly the input's
elements. -/
theorem task_id_accepts_known_or_other (V : Vocabs) (ids : List String)
    (h : ∀ s ∈ ids, s ∈ (V.known_task_ids.map Prod.snd).flatten ∨
      pyStrContains s "-other-" = true) :
    ∃ accepted, DatasetMetadata.task_id_must_be_in_known_set V (strs ids) =
      .ok (accepted, none) ∧ ∀ x, x ∈ accepted ↔ x ∈ strs ids := by
  rw [task_id_as_run, escapedTagsetRun_strs (fun s => rfl)]
  have hmem : ∀ v ∈ strs (ids.filter (fun s => !pyStrContains s "-other-")),
      v.inStrList ((V.known_task_ids.map Prod.snd).flatten) = true := by
    apply strs_all_inStrList
    intro s hs
    obtain ⟨hsids, hnc⟩ := List.mem_filter.mp hs
    rcases h s hsids with hin | hc
    · exact hin
    · rw [hc] at hnc; simp at hnc
  rw [tagset_validator_of_all_mem hmem]
  exact ⟨_, rfl, mem_strs_filter_append _ ids⟩

/-- Witness for C9: a known id together with an id that is under no
category but contains `-other-`. -/
theorem task_id_accepts_known_or_other_witness :
    (∀ s ∈ ["sentiment-analysis", "foo-other-bar"],
      s ∈ ((exVocab.known_task_ids.map Prod.snd).flatten) ∨
        pyStrContains s "-other-" = true) ∧
    ∃ accepted, DatasetMetadata.task_id_must_be_in_known_set exVocab
        (strs ["sentiment-analysis", "foo-other-bar"]) = .ok (accepted, none) ∧
      ∀ x, x ∈ accepted ↔ x ∈ strs ["sentiment-analysis", "foo-other-bar"] :=
  ⟨by decide, task_id_accepts_known_or_other exVocab
    ["sentiment-analysis", "foo-other-bar"] (by decide)⟩

/-- C10: when the `language_creators` vocabulary check fails, its returned
(validated) list is empty, so the BCP-47 check — which line 99 applies to
that returned list, not to the raw `languages` input — examines the empty
list and reports no invalid codes, and the `languages` value assigned to
the record is the empty list. -/
theorem bcp47_check_on_validated_language_creators (V : Vocabs)
    (chk : String → Bool) (values : List PyObj)
    (hfail : (DatasetMetadata.language_creators_must_be_in_known_set V values).snd ≠ none) :
    (DatasetMetadata.language_creators_must_be_in_known_set V values).fst = [] ∧
    DatasetMetadata.language_code_must_be_recognized chk
      (DatasetMetadata.language_creators_must_be_in_known_set V values).fst =
      .ok ([], none) := by
  rw [language_creators_as_tagset] at hfail ⊢
  by_cases hall : ∀ v ∈ values, v.inStrList V.creators_language = true
  · rw [tagset_validator_of_all_mem hall] at hfail
    simp at hfail
  · push_neg at hall
    obtain ⟨v, hv, hbad⟩ := hall
    have hbad' : v.inStrList V.creators_language = false := by
      cases hb : v.inStrList V.creators_language
      · rfl
      · exact absurd hb hbad
    have hne : values.filter (fun v => !v.inStrList V.creators_language) ≠ [] :=
      List.ne_nil_of_mem (List.mem_filter.mpr ⟨hv, by simp [hbad']⟩)
    rw [tagset_validator_of_invalid hne]
    exact ⟨rfl, rfl⟩

/-- Witness for C10: `"zzz"` is not a creator role, so the check fails and
the BCP-47 check sees the empty list. -/
theorem bcp47_check_on_validated_language_creators_witness :
    ((DatasetMetadata.language_creators_must_be_in_known_set exVocab
      (strs ["zzz"])).snd ≠ none) ∧
    ((DatasetMetadata.language_creators_must_be_in_known_set exVocab
      (strs ["zzz"])).fst = [] ∧
    DatasetMetadata.language_code_must_be_recognized (fun _ => false)
      (DatasetMetadata.language_creators_must_be_in_known_set exVocab
        (strs ["zzz"])).fst = .ok ([], none)) :=
  ⟨by decide, bcp47_check_on_validated_language_creators exVocab (fun _ => false)
    (strs ["zzz"]) (by decide)⟩

/-- C1 (code bug): with `language_creators = ["found"]` valid for the
vocabulary but rejected by the BCP-47 checker, the list handed to the
BCP-47 check (the validated `language_creators`) contains an invalid code
and the check itself computes an error — yet construction SUCCEEDS,
because `__post_init__` omits `languages_errors` from its aggregated
`errors` mapping (lines 107–116), and the record's `languages` field is
silently emptied. -/
theorem bcp47_invalid_codes_do_not_fail_construction :
    DatasetMetadata.from_mapping exVocab (fun s => s == "en") exFields.toRawMapping =
      .ok exRecordNoLang ∧
    DatasetMetadata.language_code_must_be_recognized (fun s => s == "en")
        (strs ["found"]) =
      .ok ([], some ("['found'] are not recognised as valid language codes (BCP47 norm), you can refer to https://github.com/LuminosoInsight/langcodes")) :=
  ⟨rfl, rfl⟩

/-- Counterexample to C2 as stated: a successful construction whose
`languages` field is the empty list (so not every field of the record is a
non-empty list). -/
theorem successful_construction_with_empty_languages :
    DatasetMetadata.from_mapping exVocab (fun _ => false) exFields.toRawMapping =
      .ok exRecordNoLang ∧
    exRecordNoLang.languages = [] :=
  ⟨rfl, rfl⟩

/-- The example mapping whose `licenses` list holds, besides `"mit"`, a
non-string iterable with `-other-` among its members (e.g. the YAML list
`["-other-"]` as an element). -/
def exContainerMapping : RawMapping :=
  ⟨some (.list (strs ["found"])), some (.list (strs ["found"])),
   some (.list (strs ["en"])), some (.list [.str "mit", .iter ["-other-"]]),
   some (.list (strs ["monolingual"])), some (.list (strs ["10K"])),
   some (.list (strs ["original"])), some (.list (strs ["text-classification"])),
   some (.list (strs ["sentiment-analysis"]))⟩

/-- The record built from `exContainerMapping`: the container element
escapes validation (membership test) and is stored verbatim in
`licenses`. -/
def exRecordContainer : DatasetMetadata :=
  ⟨strs ["found"], strs ["found"], strs ["found"],
   [.str "mit", .iter ["-other-"]], strs ["monolingual"], strs ["10K"],
   strs ["original"], strs ["text-classification"], strs ["sentiment-analysis"]⟩

/-- Witness for C2 (amended): a concrete successful construction whose
`licenses` field contains a non-string container element that escaped via
the membership test — exercising the container disjunct of the claim. -/
theorem construction_success_field_invariants_witness :
    DatasetMetadata.from_mapping exVocab (fun _ => true) exContainerMapping =
      .ok exRecordContainer ∧
    PyObj.iter ["-other-"] ∈ exRecordContainer.licenses ∧
    exRecordContainer.licenses ≠ [] :=
  ⟨rfl, by decide, (construction_success_field_invariants
    (show DatasetMetadata.from_mapping exVocab (fun _ => true) exContainerMapping =
      .ok exRecordContainer from rfl)).2.2.2.1.1⟩

/-- Counterexample to C3 as stated: every element of every input field is
valid (drawn from its vocabulary, or accepted by the checker for
`languages`), construction succeeds, yet the record's `languages` list is
NOT set-equal to the `languages` input: the input `["en"]` is discarded
and the validated `language_creators` `["found"]` is stored instead. -/
theorem record_languages_differ_from_input_languages :
    (∀ s ∈ exFields.annotations_creators, s ∈ exVocab.creators_annotations) ∧
    (∀ s ∈ exFields.language_creators, s ∈ exVocab.creators_language) ∧
    (∀ s ∈ exFields.languages, (fun _ => true : String → Bool) s = true) ∧
    (∀ s ∈ exFields.licenses, s ∈ exVocab.known_licenses) ∧
    (∀ s ∈ exFields.multilinguality, s ∈ exVocab.known_multilingualities) ∧
    (∀ s ∈ exFields.size_categories, s ∈ exVocab.known_size_categories) ∧
    (∀ s ∈ exFields.source_datasets, sourceDatasetOk s = true) ∧
    (∀ s ∈ exFields.task_categories, s ∈ exVocab.known_task_ids.map Prod.fst) ∧
    (∀ s ∈ exFields.task_ids, s ∈ (exVocab.known_task_ids.map Prod.snd).flatten) ∧
    DatasetMetadata.from_mapping exVocab (fun _ => true) exFields.toRawMapping =
      .ok exRecord ∧
    PyObj.str "en" ∈ strs exFields.languages ∧
    PyObj.str "en" ∉ exRecord.languages := by
  refine ⟨by decide, by decide, by decide, by decide, by decide, by decide, by decide,
    by decide, by decide, rfl, by decide, by decide⟩

/-- C3 (amended): when every one of the nine (non-empty) input fields has
all its elements drawn from that field's reference vocabulary or matching
its escape predicate, construction succeeds; each of the eight fields
other than `languages` is then set-equal to its input, while the
`languages` field is instead derived from the `language_creators` input:
it equals that input when every creator tag passes the BCP-47 checker and
is empty otherwise. -/
theorem valid_mapping_construction_succeeds (V : Vocabs) (chk : String → Bool)
    (f : StrFields)
    (hne1 : f.annotations_creators ≠ []) (hne2 : f.language_creators ≠ [])
    (hne3 : f.languages ≠ []) (hne4 : f.licenses ≠ []) (hne5 : f.multilinguality ≠ [])
    (hne6 : f.size_categories ≠ []) (hne7 : f.source_datasets ≠ [])
    (hne8 : f.task_categories ≠ []) (hne9 : f.task_ids ≠ [])
    (h1 : ∀ s ∈ f.annotations_creators, s ∈ V.creators_annotations)
    (h2 : ∀ s ∈ f.language_creators, s ∈ V.creators_language)
    (h3 : ∀ s ∈ f.languages, chk s = true)
    (h4 : ∀ s ∈ f.licenses, s ∈ V.known_licenses ∨ pyStrContains s "-other-" = true)
    (h5 : ∀ s ∈ f.multilinguality,
      s ∈ V.known_multilingualities ∨ pyStartsWith s "other" = true)
    (h6 : ∀ s ∈ f.size_categories, s ∈ V.known_size_categories)
    (h7 : ∀ s ∈ f.source_datasets, sourceDatasetOk s = true)
    (h8 : ∀ s ∈ f.task_categories,
      s ∈ V.known_task_ids.map Prod.fst ∨ pyStartsWith s "other" = true)
    (h9 : ∀ s ∈ f.task_ids,
      s ∈ (V.known_task_ids.map Prod.snd).flatten ∨ pyStrContains s "-other-" = true) :
    ∃ md, DatasetMetadata.from_mapping V chk f.toRawMapping = .ok md ∧
      (∀ x, x ∈ md.annotations_creators ↔ x ∈ strs f.annotations_creators) ∧
      (∀ x, x ∈ md.language_creators ↔ x ∈ strs f.language_creators) ∧
      (∀ x, x ∈ md.licenses ↔ x ∈ strs f.licenses) ∧
      (∀ x, x ∈ md.multilinguality ↔ x ∈ strs f.multilinguality) ∧
      (∀ x, x ∈ md.size_categories ↔ x ∈ strs f.size_categories) ∧
      (∀ x, x ∈ md.source_datasets ↔ x ∈ strs f.source_datasets) ∧
      (∀ x, x ∈ md.task_categories ↔ x ∈ strs f.task_categories) ∧
      (∀ x, x ∈ md.task_ids ↔ x ∈ strs f.task_ids) ∧
      md.languages = (if f.language_creators.all chk then strs f.language_creators else []) := by
  have hac : DatasetMetadata.annotations_creators_must_be_in_known_set V
      (strs f.annotations_creators) = (strs f.annotations_creators, none) := by
    rw [annotations_creators_as_tagset]
    exact tagset_validator_of_all_mem (strs_all_inStrList h1)
  have hlc : DatasetMetadata.language_creators_must_be_in_known_set V
      (strs f.language_creators) = (strs f.language_creators, none) := by
    rw [language_creators_as_tagset]
    exact tagset_validator_of_all_mem (strs_all_inStrList h2)
  have hsz : DatasetMetadata.size_categories_must_be_in_known_set V
      (strs f.size_categories) = (strs f.size_categories, none) := by
    rw [size_categories_as_tagset]
    exact tagset_validator_of_all_mem (strs_all_inStrList h6)
  have hlic : DatasetMetadata.licenses_must_be_in_known_set V (strs f.licenses) =
      .ok (strs (f.licenses.filter (fun s => !pyStrContains s "-other-")) ++
        strs (f.licenses.filter (fun s => pyStrContains s "-other-")), none) := by
    rw [licenses_as_run, escapedTagsetRun_strs (fun s => rfl)]
    rw [tagset_validator_of_all_mem (strs_all_inStrList (fun s hs => by
      obtain ⟨hsl, hnc⟩ := List.mem_filter.mp hs
      rcases h4 s hsl with hin | hc
      · exact hin
      · rw [hc] at hnc; simp at hnc))]
  have hmul : DatasetMetadata.multilinguality_must_be_in_known_set V
      (strs f.multilinguality) =
      .ok (strs (f.multilinguality.filter (fun s => !pyStartsWith s "other")) ++
        strs (f.multilinguality.filter (fun s => pyStartsWith s "other")), none) := by
    rw [multilinguality_as_run, escapedTagsetRun_strs (fun s => rfl)]
    rw [tagset_validator_of_all_mem (strs_all_inStrList (fun s hs => by
      obtain ⟨hsl, hnc⟩ := List.mem_filter.mp hs
      rcases h5 s hsl with hin | hc
      · exact hin
      · rw [hc] at hnc; simp at hnc))]
  have htc : DatasetMetadata.task_category_must_be_in_known_set V
      (strs f.task_categories) =
      .ok (strs (f.task_categories.filter (fun s => !pyStartsWith s "other")) ++
        strs (f.task_categories.filter (fun s => pyStartsWith s "other")), none) := by
    rw [task_category_as_run, escapedTagsetRun_strs (fun s => rfl)]
    rw [tagset_validator_of_all_mem (strs_all_inStrList (fun s hs => by
      obtain ⟨hsl, hnc⟩ := List.mem_filter.mp hs
      rcases h8 s hsl with hin | hc
      · exact hin
      · rw [hc] at hnc; simp at hnc))]
  have hti : DatasetMetadata.task_id_must_be_in_known_set V (strs f.task_ids) =
      .ok (strs (f.task_ids.filter (fun s => !pyStrContains s "-other-")) ++
        strs (f.task_ids.filter (fun s => pyStrContains s "-other-")), none) := by
    rw [task_id_as_run, escapedTagsetRun_strs (fun s => rfl)]
    rw [tagset_validator_of_all_mem (strs_all_inStrList (fun s hs => by
      obtain ⟨hsl, hnc⟩ := List.mem_filter.mp hs
      rcases h9 s hsl with hin | hc
      · exact hin
      · rw [hc] at hnc; simp at hnc))]
  have hsrc : DatasetMetadata.source_datasets_must_be_in_known_set
      (strs f.source_datasets) = .ok (strs f.source_datasets, none) := by
    unfold DatasetMetadata.source_datasets_must_be_in_known_set
    rw [collectInvalidSources_strs]
    have hf : f.source_datasets.filter (fun s => !sourceDatasetOk s) = [] := by
      rw [List.filter_eq_nil_iff]
      intro s hs
      simp [h7 s hs]
    rw [hf]
    simp [Bind.bind, Except.bind, strs]
  have hlang : DatasetMetadata.language_code_must_be_recognized chk
      (strs f.language_creators) =
      (if (f.language_creators.filter (fun s => !chk s)).length > 0 then
        .ok ([], some (pyReprList (strs (f.language_creators.filter (fun s => !chk s))) ++
          " are not recognised as valid language codes (BCP47 norm), you can refer to https://github.com/LuminosoInsight/langcodes"))
      else .ok (strs f.language_creators, none)) :=
    language_code_must_be_recognized_strs chk f.language_creators
  have hrep : strReport V chk f = [] := by
    simp [strReport, fieldErr, errOf, hac, hlc, hlic, hmul, hsz, hsrc, htc, hti]
  have heq := from_mapping_strs V chk f hne1 hne2 hne3 hne4 hne5 hne6 hne7 hne8 hne9
  rw [hrep] at heq
  simp only [List.length_nil, gt_iff_lt, lt_self_iff_false, if_false] at heq
  refine ⟨strRecord V chk f, heq, ?_, ?_, ?_, ?_, ?_, ?_, ?_, ?_, ?_⟩
  · simp only [strRecord, hac]
    intro x; trivial
  · simp only [strRecord, hlc]
    intro x; trivial
  · simp only [strRecord, valOf, hlic]
    exact mem_strs_filter_append _ f.licenses
  · simp only [strRecord, valOf, hmul]
    exact mem_strs_filter_append _ f.multilinguality
  · simp only [strRecord, hsz]
    intro x; trivial
  · simp only [strRecord, valOf, hsrc]
    intro x; trivial
  · simp only [strRecord, valOf, htc]
    exact mem_strs_filter_append _ f.task_categories
  · simp only [strRecord, valOf, hti]
    exact mem_strs_filter_append _ f.task_ids
  · simp only [strRecord, hlc, valOf, hlang]
    by_cases hall : f.language_creators.all chk
    · have hfe : f.language_creators.filter (fun s => !chk s) = [] := by
        rw [List.filter_eq_nil_iff]
        intro s hs
        simp [List.all_eq_true.mp hall s hs]
      rw [hfe]
      simp [valOf, hall]
    · have hx : ∃ s ∈ f.language_creators, ¬ chk s = true := by
        simpa [List.all_eq_true] using hall
      obtain ⟨s, hs, hcs⟩ := hx
      have hpos : (f.language_creators.filter (fun s => !chk s)).length > 0 :=
        List.length_pos.mpr (List.ne_nil_of_mem (List.mem_filter.mpr ⟨hs, by simp [hcs]⟩))
      rw [if_pos hpos]
      simp [valOf, hall]

/-- Witness for C3 (amended): the fully valid example input. -/
theorem valid_mapping_construction_succeeds_witness :
    ∃ md, DatasetMetadata.from_mapping exVocab (fun _ => true) exFields.toRawMapping =
      .ok md ∧
      (∀ x, x ∈ md.annotations_creators ↔ x ∈ strs exFields.annotations_creators) ∧
      (∀ x, x ∈ md.language_creators ↔ x ∈ strs exFields.language_creators) ∧
      (∀ x, x ∈ md.licenses ↔ x ∈ strs exFields.licenses) ∧
      (∀ x, x ∈ md.multilinguality ↔ x ∈ strs exFields.multilinguality) ∧
      (∀ x, x ∈ md.size_categories ↔ x ∈ strs exFields.size_categories) ∧
      (∀ x, x ∈ md.source_datasets ↔ x ∈ strs exFields.source_datasets) ∧
      (∀ x, x ∈ md.task_categories ↔ x ∈ strs exFields.task_categories) ∧
      (∀ x, x ∈ md.task_ids ↔ x ∈ strs exFields.task_ids) ∧
      md.languages = (if exFields.language_creators.all (fun _ => true) then
        strs exFields.language_creators else []) :=
  valid_mapping_construction_succeeds exVocab (fun _ => true) exFields
    (by decide) (by decide) (by decide) (by decide) (by decide) (by decide)
    (by decide) (by decide) (by decide)
    (by decide) (by decide) (by decide) (by decide) (by decide) (by decide)
    (by decide) (by decide) (by decide)

/-- A mapping with `annotations_creators` absent and `licenses` bound to a
non-list value; all other fields valid. -/
def exMixedMapping : RawMapping :=
  ⟨none, some (.list (strs ["found"])), some (.list (strs ["en"])), some .nonList,
   some (.list (strs ["monolingual"])), some (.list (strs ["10K"])),
   some (.list (strs ["original"])), some (.list (strs ["text-classification"])),
   some (.list (strs ["sentiment-analysis"]))⟩

/-- Counterexample to C4 as stated: `annotations_creators` is missing and
`licenses` is present but not a list — both offending — yet construction
fails with Python's missing-argument error naming ONLY the missing field;
the mistyped `licenses` is not named anywhere in the report. -/
theorem mixed_missing_and_mistyped_report_incomplete :
    DatasetMetadata.from_mapping exVocab (fun _ => true) exMixedMapping =
      .error (.missingArguments ["annotations_creators"]) ∧
    "licenses" ∉ ["annotations_creators"] :=
  ⟨rfl, by decide⟩

/-- C4 (amended): missing fields and mistyped fields are reported in two
separate stages.  If any of the nine parameters is absent, construction
fails with the missing-argument error naming every absent field (and only
those); otherwise, if any present field is not a non-empty sequence whose
first element is a string, construction fails with a typing-error report
naming every such field, collected all at once. -/
theorem structural_error_reports (V : Vocabs) (chk : String → Bool) (m : RawMapping) :
    (missing_arguments m ≠ [] →
      DatasetMetadata.from_mapping V chk m = .error (.missingArguments (missing_arguments m)) ∧
      ∀ p ∈ m.entries, p.snd = none → p.fst ∈ missing_arguments m) ∧
    (missing_arguments m = [] → basic_typing_errors m.toRawFields ≠ [] →
      DatasetMetadata.from_mapping V chk m =
        .error (.basicTypingError (basic_typing_errors m.toRawFields)) ∧
      ∀ p ∈ m.toRawFields.entries, p.snd.isBasicTypingError = true →
        p.fst ∈ basic_typing_errors m.toRawFields) := by
  constructor
  · intro hmiss
    constructor
    · unfold DatasetMetadata.from_mapping
      rw [if_pos (List.length_pos.mpr hmiss)]
    · intro p hp hnone
      unfold missing_arguments
      refine List.mem_filterMap.mpr ⟨p, hp, ?_⟩
      rw [hnone]
      simp
  · intro hmiss hbte
    constructor
    · unfold DatasetMetadata.from_mapping
      rw [if_neg (by rw [hmiss]; simp)]
      unfold DatasetMetadata.construct
      rw [if_pos (List.length_pos.mpr hbte)]
    · intro p hp hbad
      unfold basic_typing_errors
      refine List.mem_filterMap.mpr ⟨p, hp, ?_⟩
      rw [hbad]
      simp

/-- A mapping with all nine fields present but three of them mistyped: a
non-list, an empty list, and a list whose first element is not a string. -/
def exBadTypesMapping : RawMapping :=
  ⟨some .nonList, some (.list []), some (.list [.other]), some (.list (strs ["mit"])),
   some (.list (strs ["monolingual"])), some (.list (strs ["10K"])),
   some (.list (strs ["original"])), some (.list (strs ["text-classification"])),
   some (.list (strs ["sentiment-analysis"]))⟩

/-- Witness for C4 (amended): both stages exercised. -/
theorem structural_error_reports_witness :
    (missing_arguments exMixedMapping ≠ [] ∧
      DatasetMetadata.from_mapping exVocab (fun _ => true) exMixedMapping =
        .error (.missingArguments (missing_arguments exMixedMapping))) ∧
    (missing_arguments exBadTypesMapping = [] ∧
      basic_typing_errors exBadTypesMapping.toRawFields ≠ [] ∧
      DatasetMetadata.from_mapping exVocab (fun _ => true) exBadTypesMapping =
        .error (.basicTypingError (basic_typing_errors exBadTypesMapping.toRawFields))) :=
  ⟨⟨by decide,
    ((structural_error_reports exVocab (fun _ => true) exMixedMapping).1 (by decide)).1⟩,
   ⟨by decide, by decide,
    ((structural_error_reports exVocab (fun _ => true) exBadTypesMapping).2
      (by decide) (by decide)).1⟩⟩

/-- Counterexample to C5 as stated: the error produced for an invalid
`multilinguality` value carries the size-categories resource URL, not the
multilingualities resource URL (the URL of that field's own vocabulary is
absent from the message). -/
theorem multilinguality_error_lacks_own_url :
    DatasetMetadata.multilinguality_must_be_in_known_set exVocab (strs ["zzz"]) =
      .ok ([], some (tagsetErrorMessage [PyObj.str "zzz"] "multilinguality"
        known_size_categories_url)) ∧
    pyStrContains (tagsetErrorMessage [PyObj.str "zzz"] "multilinguality"
      known_size_categories_url) known_multilingualities_url = false ∧
    pyStrContains (tagsetErrorMessage [PyObj.str "zzz"] "multilinguality"
      known_size_categories_url) known_size_categories_url = true :=
  ⟨rfl, by decide, by decide⟩

/-- C5 (amended): each validator's error description embeds exactly the
name and URL the source passes to `tagset_validator`: `annotations_creators`
and `language_creators` both use the name `annotations` with the creators
URL, `licenses` and `size_categories` use their own name and URL,
`multilinguality` uses its own name but the size-categories URL, and
`task_categories` and `task_ids` both use the name `tasks_ids` with the
tasks URL. -/
theorem validator_error_names_and_urls (V : Vocabs) (xs : List String) :
    ((strs xs).filter (fun v => !v.inStrList V.creators_annotations) ≠ [] →
      (DatasetMetadata.annotations_creators_must_be_in_known_set V (strs xs)).snd =
        some (tagsetErrorMessage
          ((strs xs).filter (fun v => !v.inStrList V.creators_annotations))
          "annotations" known_creators_url)) ∧
    ((strs xs).filter (fun v => !v.inStrList V.creators_language) ≠ [] →
      (DatasetMetadata.language_creators_must_be_in_known_set V (strs xs)).snd =
        some (tagsetErrorMessage
          ((strs xs).filter (fun v => !v.inStrList V.creators_language))
          "annotations" known_creators_url)) ∧
    ((strs (xs.filter (fun s => !pyStrContains s "-other-"))).filter
        (fun v => !v.inStrList V.known_licenses) ≠ [] →
      errOf (DatasetMetadata.licenses_must_be_in_known_set V (strs xs)) =
        some (tagsetErrorMessage
          ((strs (xs.filter (fun s => !pyStrContains s "-other-"))).filter
            (fun v => !v.inStrList V.known_licenses))
          "licenses" known_licenses_url)) ∧
    ((strs (xs.filter (fun s => !pyStartsWith s "other"))).filter
        (fun v => !v.inStrList V.known_multilingualities) ≠ [] →
      errOf (DatasetMetadata.multilinguality_must_be_in_known_set V (strs xs)) =
        some (tagsetErrorMessage
          ((strs (xs.filter (fun s => !pyStartsWith s "other"))).filter
            (fun v => !v.inStrList V.known_multilingualities))
          "multilinguality" known_size_categories_url)) ∧
    ((strs xs).filter (fun v => !v.inStrList V.known_size_categories) ≠ [] →
      (DatasetMetadata.size_categories_must_be_in_known_set V (strs xs)).snd =
        some (tagsetErrorMessage
          ((strs xs).filter (fun v => !v.inStrList V.known_size_categories))
          "size_categories" known_size_categories_url)) ∧
    ((strs (xs.filter (fun s => !pyStartsWith s "other"))).filter
        (fun v => !v.inStrList (V.known_task_ids.map Prod.fst)) ≠ [] →
      errOf (DatasetMetadata.task_category_must_be_in_known_set V (strs xs)) =
        some (tagsetErrorMessage
          ((strs (xs.filter (fun s => !pyStartsWith s "other"))).filter
            (fun v => !v.inStrList (V.known_task_ids.map Prod.fst)))
          "tasks_ids" known_task_ids_url)) ∧
    ((strs (xs.filter (fun s => !pyStrContains s "-other-"))).filter
        (fun v => !v.inStrList ((V.known_task_ids.map Prod.snd).flatten)) ≠ [] →
      errOf (DatasetMetadata.task_id_must_be_in_known_set V (strs xs)) =
        some (tagsetErrorMessage
          ((strs (xs.filter (fun s => !pyStrContains s "-other-"))).filter
            (fun v => !v.inStrList ((V.known_task_ids.map Prod.snd).flatten)))
          "tasks_ids" known_task_ids_url)) := by
  refine ⟨?_, ?_, ?_, ?_, ?_, ?_, ?_⟩
  · intro h
    rw [annotations_creators_as_tagset, tagset_validator_of_invalid h]
  · intro h
    rw [language_creators_as_tagset, tagset_validator_of_invalid h]
  · intro h
    rw [licenses_as_run, escapedTagsetRun_strs (fun s => rfl)]
    simp only [errOf]
    rw [tagset_validator_of_invalid h]
  · intro h
    rw [multilinguality_as_run, escapedTagsetRun_strs (fun s => rfl)]
    simp only [errOf]
    rw [tagset_validator_of_invalid h]
  · intro h
    rw [size_categories_as_tagset, tagset_validator_of_invalid h]
  · intro h
    rw [task_category_as_run, escapedTagsetRun_strs (fun s => rfl)]
    simp only [errOf]
    rw [tagset_validator_of_invalid h]
  · intro h
    rw [task_id_as_run, escapedTagsetRun_strs (fun s => rfl)]
    simp only [errOf]
    rw [tagset_validator_of_invalid h]

/-- Witness for C5 (amended): `"zzz"` is invalid for every vocabulary of
the example instance and matches no escape pattern. -/
theorem validator_error_names_and_urls_witness :
    ((strs ["zzz"]).filter (fun v => !v.inStrList exVocab.creators_language) ≠ []) ∧
    (DatasetMetadata.language_creators_must_be_in_known_set exVocab (strs ["zzz"])).snd =
      some (tagsetErrorMessage
        ((strs ["zzz"]).filter (fun v => !v.inStrList exVocab.creators_language))
        "annotations" known_creators_url) :=
  ⟨by decide, (validator_error_names_and_urls exVocab ["zzz"]).2.1 (by decide)⟩

/-- Counterexample to C6 as stated: an empty document contains no
`---`-delimited block, but `from_readme` raises the `IndexError` from
`content[0]`, not the "did not find a yaml block" error. -/
theorem empty_document_raises_index_error :
    DatasetMetadata.from_readme exVocab (fun _ => true) (fun _ => none) [] =
      .error .indexError ∧
    ReadmeError.indexError ≠ ReadmeError.noYamlBlock :=
  ⟨rfl, by decide⟩

/-- C6 (amended): every NON-empty document that does not contain a
`---`-delimited front-matter block (its first stripped line is not `---`,
or no later line is `---`) makes `from_readme` raise the "did not find a
yaml block" error — never a field-validation error. -/
theorem no_yaml_block_error_for_nonempty_docs (V : Vocabs) (chk : String → Bool)
    (yamlLoad : String → Option RawMapping) (first : String) (rest : List String)
    (h : ¬ (first = "---" ∧ "---" ∈ rest)) :
    DatasetMetadata.from_readme V chk yamlLoad (first :: rest) =
      .error .noYamlBlock := by
  unfold DatasetMetadata.from_readme dict_from_readme
  have hcond : (first == "---" && rest.contains "---") = false := by
    by_cases h1 : first = "---"
    · by_cases h2 : "---" ∈ rest
      · exact absurd ⟨h1, h2⟩ h
      · simp [h1, h2]
    · simp [h1]
  simp only [hcond, Bool.false_eq_true, if_false]

/-- Witness for C6 (amended): a two-line document with no front matter. -/
theorem no_yaml_block_error_for_nonempty_docs_witness :
    DatasetMetadata.from_readme exVocab (fun _ => true) (fun _ => none)
      ["hello", "world"] = .error .noYamlBlock :=
  no_yaml_block_error_for_nonempty_docs exVocab (fun _ => true) (fun _ => none)
    "hello" ["world"] (by decide)

/-- The example input with invalid values in exactly two distinct fields:
the `languages` input `["en"]` is rejected by the checker used below, and
`licenses` holds the unknown value `"bogus"`. -/
def exFieldsTwoBad : StrFields :=
  ⟨["found"], ["found"], ["en"], ["bogus"], ["monolingual"], ["10K"], ["original"],
   ["text-classification"], ["sentiment-analysis"]⟩

/-- Counterexample to C7 as stated: with invalid values in exactly two
distinct fields — `languages` (the checker rejects `"en"`) and `licenses`
(`"bogus"` is unknown) — the report contains exactly ONE key: the
`languages` input is never validated and the BCP-47 errors are dropped, so
no `languages` key can ever appear. -/
theorem languages_invalidity_missing_from_report :
    ((fun s => s != "en") "en" = false) ∧
    DatasetMetadata.from_mapping exVocab (fun s => s != "en")
        exFieldsTwoBad.toRawMapping =
      .error (.validationError
        [("licenses", tagsetErrorMessage [PyObj.str "bogus"] "licenses" known_licenses_url)]) ∧
    [("licenses", tagsetErrorMessage [PyObj.str "bogus"] "licenses"
      known_licenses_url)].length = 1 :=
  ⟨rfl, rfl, rfl⟩

/-- C7 (amended): on a (structurally valid) string-typed mapping the
aggregated report has exactly one key per failing field AMONG THE EIGHT
aggregated fields (all but `languages`); in particular, when exactly two
of those validators fail, construction fails with a report of exactly two
keys, and neither key can be `languages`. -/
theorem report_has_one_key_per_failing_aggregated_field (V : Vocabs)
    (chk : String → Bool) (f : StrFields)
    (hne1 : f.annotations_creators ≠ []) (hne2 : f.language_creators ≠ [])
    (hne3 : f.languages ≠ []) (hne4 : f.licenses ≠ []) (hne5 : f.multilinguality ≠ [])
    (hne6 : f.size_categories ≠ []) (hne7 : f.source_datasets ≠ [])
    (hne8 : f.task_categories ≠ []) (hne9 : f.task_ids ≠ [])
    (n1 n2 : String)
    (hfail : (strReport V chk f).map Prod.fst = [n1, n2]) :
    DatasetMetadata.from_mapping V chk f.toRawMapping =
      .error (.validationError (strReport V chk f)) ∧
    (strReport V chk f).length = 2 ∧
    n1 ≠ "languages" ∧ n2 ≠ "languages" := by
  have heq := from_mapping_strs V chk f hne1 hne2 hne3 hne4 hne5 hne6 hne7 hne8 hne9
  have hlen : (strReport V chk f).length = 2 := by
    have := congrArg List.length hfail
    simpa using this
  have hkeys : ∀ nm, nm ∈ (strReport V chk f).map Prod.fst → nm ≠ "languages" := by
    intro nm hm
    obtain ⟨p, hp, rfl⟩ := List.mem_map.mp hm
    obtain ⟨fe, hfe, hmap⟩ := List.mem_filterMap.mp hp
    have hfst : p.fst = fe.fst := by
      cases hsnd : fe.snd with
      | none => rw [hsnd] at hmap; simp at hmap
      | some e =>
        rw [hsnd] at hmap
        simp only [Option.map_some'] at hmap
        injection hmap with hmap
        rw [← hmap]
    rw [hfst]
    simp only [fieldErr, strReport] at hfe
    simp only [List.mem_cons, List.not_mem_nil, or_false] at hfe
    rcases hfe with h | h | h | h | h | h | h | h
    all_goals (subst h; simp)
  constructor
  · rw [heq, if_pos (by omega)]
  · refine ⟨hlen, ?_, ?_⟩
    · exact hkeys n1 (by rw [hfail]; simp)
    · exact hkeys n2 (by rw [hfail]; simp)

/-- The example input with unknown values in `licenses` and `task_ids`. -/
def exFieldsLicTid : StrFields :=
  ⟨["found"], ["found"], ["en"], ["bogus"], ["monolingual"], ["10K"], ["original"],
   ["text-classification"], ["weird-task"]⟩

/-- Witness for C7 (amended): `licenses` and `task_ids` both fail, and the
report has exactly those two keys. -/
theorem report_has_one_key_per_failing_aggregated_field_witness :
    ((strReport exVocab (fun _ => true) exFieldsLicTid).map Prod.fst =
      ["licenses", "task_ids"]) ∧
    (DatasetMetadata.from_mapping exVocab (fun _ => true) exFieldsLicTid.toRawMapping =
      .error (.validationError (strReport exVocab (fun _ => true) exFieldsLicTid)) ∧
    (strReport exVocab (fun _ => true) exFieldsLicTid).length = 2 ∧
    "licenses" ≠ "languages" ∧ "task_ids" ≠ "languages") :=
  ⟨by decide,
   report_has_one_key_per_failing_aggregated_field exVocab (fun _ => true) exFieldsLicTid
     (by decide) (by decide) (by decide) (by decide) (by decide) (by decide)
     (by decide) (by decide) (by decide) "licenses" "task_ids" (by decide)⟩
